import Mathlib

/-!
# Verification of opsipxeconfd against its specification

A shallow embedding of the opsipxeconfd daemon (opsi PXE configuration
daemon).  The embedded code comes from:

* `src/opsipxeconfd/opsipxeconfd.py` — the `Opsipxeconfd` daemon class
  (update pipeline, writer registry, completion callback, stop, status),
  the monolithic `PXEConfigWriter` and helpers;
* `src/opsipxeconfd/pxeconfigwriter.py` — the split-out `PXEConfigWriter`
  (template rendering, construction);
* `src/opsipxeconfd/util.py` — `ClientConnection._processCommand`.

Python strings are embedded as `String`, operating on the underlying
character lists so that every operation is executable and kernel-reducible.
Python dictionaries (which preserve insertion order) are embedded as
association lists.  Backend RPC calls are embedded as oracle functions in a
`Backend` structure.  Thread effects (locking, stopping and joining writer
threads, socket operations) are recorded in an `Action` trace so that
ordering claims can be stated.
-/

namespace Opsipxeconfd

/-! ## String helpers

Python's `str` operations, implemented over `String.data` character lists
(the built-in `String.toLower`, `String.toNat?` … do not reduce in the
kernel).  Semantics follow CPython: `split()` without an argument splits on
whitespace runs and drops empty fields, `split(sep)` splits on every
non-overlapping occurrence left to right, `replace` replaces every
non-overlapping occurrence left to right.
-/

/-- Embeds `listStartsWith l p` : `l` begins with `p` (Python `str.startswith`). -/
def listStartsWith : List Char → List Char → Bool
  | _, [] => true
  | [], _ :: _ => false
  | a :: as, b :: bs => a == b && listStartsWith as bs

/-- Python `s.startswith(p)`. -/
def strStartsWith (s p : String) : Bool := listStartsWith s.data p.data

/-- Python `s.endswith(p)`. -/
def strEndsWith (s p : String) : Bool := listStartsWith s.data.reverse p.data.reverse

/-- Embeds `p in s` on character lists: some suffix of `s` starts with `p`. -/
def listContainsSub (p : List Char) : List Char → Bool
  | [] => p.isEmpty
  | c :: t => listStartsWith (c :: t) p || listContainsSub p t

/-- Python `p in s` (substring test). -/
def strContains (s p : String) : Bool := listContainsSub p.data s.data

/-- Python `s.lstrip()`. -/
def strTrimLeft (s : String) : String := String.mk (s.data.dropWhile Char.isWhitespace)

/-- Python `s.rstrip()`. -/
def strTrimRight (s : String) : String :=
  String.mk ((s.data.reverse.dropWhile Char.isWhitespace).reverse)

/-- Python `s.strip()`. -/
def strTrim (s : String) : String := strTrimRight (strTrimLeft s)

/-- Python `s.lower()` (ASCII case folding suffices for the values used). -/
def strToLower (s : String) : String := String.mk (s.data.map Char.toLower)

/-- Accumulating worker for whitespace splitting; `acc` holds the current
field reversed. -/
def splitWsChars : List Char → List Char → List String
  | [], acc => if acc.isEmpty then [] else [String.mk acc.reverse]
  | c :: cs, acc =>
      if c.isWhitespace then
        (if acc.isEmpty then [] else [String.mk acc.reverse]) ++ splitWsChars cs []
      else
        splitWsChars cs (c :: acc)

/-- Python `s.split()` — split on whitespace runs, dropping empty fields. -/
def splitWs (s : String) : List String := splitWsChars s.data []

/-- Split on every non-overlapping occurrence of the separator
`s0 :: srest`; `acc` holds the current field reversed.  Structural
recursion on `fuel`, which is maintained `≥` the length of the list
argument (each step consumes one unit of fuel and at least one
character), so the `fuel = 0` fallback is only reached with an empty
list. -/
def listSplitOnAux (s0 : Char) (srest : List Char) :
    Nat → List Char → List Char → List (List Char)
  | _, [], acc => [acc.reverse]
  | 0, l, acc => [acc.reverse ++ l]
  | fuel + 1, c :: cs, acc =>
      if listStartsWith (c :: cs) (s0 :: srest) then
        acc.reverse :: listSplitOnAux s0 srest fuel (cs.drop srest.length) []
      else
        listSplitOnAux s0 srest fuel cs (c :: acc)

/-- Python `s.split(sep)` for a non-empty separator (Python raises on an
empty separator; all separators used are literal and non-empty). -/
def strSplitOn (s sep : String) : List String :=
  match sep.data with
  | [] => [s]
  | c :: cs => (listSplitOnAux c cs s.data.length s.data []).map String.mk

/-- Replace every non-overlapping occurrence of `p0 :: prest` by `rep`,
left to right.  `fuel` is maintained `≥` the length of the list argument
(each step consumes one unit of fuel and at least one character), so the
`fuel = 0` fallback is only reached with an empty list. -/
def listReplaceAux (p0 : Char) (prest rep : List Char) : Nat → List Char → List Char
  | _, [] => []
  | 0, l => l
  | fuel + 1, c :: cs =>
      if listStartsWith (c :: cs) (p0 :: prest) then
        rep ++ listReplaceAux p0 prest rep fuel (cs.drop prest.length)
      else
        c :: listReplaceAux p0 prest rep fuel cs

/-- Python `s.replace(pat, rep)` for a non-empty pattern. -/
def strReplace (s pat rep : String) : String :=
  match pat.data with
  | [] => s
  | c :: cs => String.mk (listReplaceAux c cs rep.data s.data.length s.data)

/-- Python `sep.join(l)`. -/
def strIntercalate (sep : String) : List String → String
  | [] => ""
  | [x] => x
  | x :: y :: rest => x ++ sep ++ strIntercalate sep (y :: rest)

/-- Python `''.join(l)`. -/
def strConcat (l : List String) : String := strIntercalate "" l

/-- Python `s[:-1]` — drop the final character (empty stays empty). -/
def strDropLast (s : String) : String := String.mk (s.data.dropLast)

/-- Parse a run of decimal digits (CPython `int(s)` restricted to the
unsigned decimal strings the daemon actually sees); `none` models the
`ValueError` raised on anything else. -/
def digitsToNat : List Char → Option Nat
  | [] => none
  | cs => cs.foldl (fun acc? c =>
      match acc? with
      | none => none
      | some acc => if c.isDigit then some (acc * 10 + (c.toNat - '0'.toNat)) else none)
      (some 0)

/-- Python `int(s)` for the unsigned decimal case (surrounding whitespace
is tolerated as CPython does). -/
def pyInt (s : String) : Option Nat := digitsToNat (strTrim s).data

/-- Uppercase hexadecimal digit for `n < 16`. -/
def hexDigit (n : Nat) : Char :=
  if n < 10 then Char.ofNat ('0'.toNat + n) else Char.ofNat ('A'.toNat + (n - 10))

/-- Worker for `natToHexUpper`; `fuel ≥ n` at every call (each step divides
`n` by 16 and loses at least one unit of fuel), so the `fuel = 0` fallback
is only reached with `n = 0 < 16`. -/
def natToHexUpperAux : Nat → Nat → String
  | 0, n => String.mk [hexDigit (n % 16)]
  | fuel + 1, n =>
      if n < 16 then String.mk [hexDigit n]
      else natToHexUpperAux fuel (n / 16) ++ String.mk [hexDigit (n % 16)]

/-- Uppercase hexadecimal rendering of `n` (no leading zeros, `0 ↦ "0"`). -/
def natToHexUpper (n : Nat) : String := natToHexUpperAux n n

/-- Python `'%02X' % n` — uppercase hex padded to two digits with zeros. -/
def hexByte (n : Nat) : String :=
  if n < 16 then "0" ++ natToHexUpper n else natToHexUpper n

/-- Python truthiness of an optional string (`None` and `''` are falsy). -/
def pyTruthy : Option String → Bool
  | none => false
  | some s => !s.data.isEmpty

/-- The string held by an optional value, with `None ↦ ''` (faithful for
every use below: `None` only ever flows into truthiness tests and into
contexts where CPython would not interpolate it). -/
def optStr : Option String → String
  | none => ""
  | some s => s

/-! ## Ordered dictionaries

Python `dict`s preserve insertion order; updating an existing key keeps its
position.  Embedded as association lists. -/

/-- Python `m[k]` as an option (`None` on a missing key). -/
def dictLookup (k : String) : List (String × String) → Option String
  | [] => none
  | (a, v) :: r => if a == k then some v else dictLookup k r

/-- Python `m[k] = v` — update in place if present, else append. -/
def dictInsert (m : List (String × String)) (k v : String) : List (String × String) :=
  match m with
  | [] => [(k, v)]
  | (a, w) :: r => if a == k then (a, v) :: r else (a, w) :: dictInsert r k v

/-- Python `del m[k]` with the surrounding `try/except KeyError: pass` —
remove the key if present, silently do nothing otherwise. -/
def dictDelete (k : String) : List (String × String) → List (String × String)
  | [] => []
  | (a, v) :: r => if a == k then dictDelete k r else (a, v) :: dictDelete k r

/-- Python `os.path.join(a, b)` for the two-argument form used. -/
def osPathJoin (a b : String) : String :=
  if strStartsWith b "/" then b
  else if a == "" || strEndsWith a "/" then a ++ b
  else a ++ "/" ++ b

/-- Python `os.path.dirname(p)` (for the absolute template paths used). -/
def osPathDirname (p : String) : String :=
  strIntercalate "/" (strSplitOn p "/").dropLast


/-! ## Data model

Object types mirror the attributes the embedded code reads.  Optional
string attributes model Python attributes that may be `None`; an empty
string is distinct from `None` but both are falsy (`pyTruthy`). -/

/-- Embeds `OPSI.Object.ProductOnClient` — the fields read by the daemon. -/
structure ProductOnClient where
  clientId : String
  productId : String
  actionRequest : String
  actionProgress : String
  productVersion : Option String
  packageVersion : Option String
deriving DecidableEq, Repr

/-- Embeds `OPSI.Object.Host` — the fields read by the daemon.  `systemUUID` is
carried in the data model (the specification's §4.5.2 mentions it) so that
theorems can state whether the code consults it. -/
structure Host where
  id : String
  hardwareAddress : Option String
  ipAddress : Option String
  systemUUID : Option String
  opsiHostKey : Option String
deriving DecidableEq, Repr

/-- Embeds `OPSI.Object.ProductOnDepot` — the fields read by the daemon. -/
structure ProductOnDepot where
  productId : String
  productVersion : String
  packageVersion : String
deriving DecidableEq, Repr

/-- Embeds `OPSI.Object.Product` (netboot product) — the fields read. -/
structure Product where
  id : String
  pxeConfigTemplate : Option String
deriving DecidableEq, Repr

/-- A `PXEConfigWriter` as registered in `Opsipxeconfd._pxeConfigWriters`.
`uefiModule` / `secureBootModule` are `self._uefiModule` /
`self._secureBootModule` after the modules-file verification block (the
cryptographic signature verification over the external licensing file;
its outcome is carried as data).  `running` is `self._running`. -/
structure Writer where
  hostId : String
  templatefile : String
  pxefile : String
  append : List (String × String)
  content : String
  uefi : Bool
  uefiModule : Bool
  secureBootModule : Bool
  usingGrub : Bool
  running : Bool
  productOnClients : List ProductOnClient
deriving DecidableEq, Repr

/-- Daemon configuration — the `self.config` keys the embedded code reads.
`fs` maps a template path to its lines (the filesystem view used by
`open(...).readlines()`, with line terminators already split off). -/
structure Config where
  pxeDir : String
  pxeConfTemplate : String
  uefiConfTemplateX86 : String
  uefiConfTemplateX64 : String
  depotId : String
  fs : String → Option (List String)

/-- Backend oracle — the RPC surface `self._backend` offers, restricted to
the calls the embedded code makes, keyed the way the code keys them.
For the `configState_getObjects` calls the result is the list of
`getValues()` lists of the returned config states.  `uefiModule` and
`secureBootModule` stand for the licensing outcome derived from
`backend_info()` (see `Writer`). -/
structure Backend where
  productOnClient_getObjects : String → List ProductOnClient
  productOnClient_refetch : String → String → List ProductOnClient
  host_getObjects : String → Option Host
  productOnDepot_getObjects : String → String → Option ProductOnDepot
  product_getObjects : String → Option String → Option String → Option Product
  configState_dhcpdFilename : String → List (List String)
  configState_configserverUrl : String → List (List String)
  configState_bootimageAppend : String → List (List String)
  productPropertyStates : String → List String → List (String × String)
  uefiModule : Bool
  secureBootModule : Bool

/-- Thread/lock/socket effects, recorded as an ordered trace so that the
specification's ordering claims (removal under the lock, stop-and-join
before insert, publish before re-trigger) can be stated. -/
inductive Action where
  | lockAcquire : Action
  | lockRelease : Action
  | removeFromRegistry : String → Action
  | writerStop : String → Action
  | writerJoin : String → Action
  | writerInsert : String → Action
  | startupStop : Action
  | startupJoin : Action
  | socketClose : Action
  | publish : Action
  | updateCall : String → Action
deriving DecidableEq, Repr

/-- The daemon's mutable state: the writer registry
(`self._pxeConfigWriters`), the set of paths existing in the PXE
directory (`disk`), whether `self._startupTask` has been created, and
`self._running`. -/
structure DaemonState where
  config : Config
  pxeConfigWriters : List Writer
  disk : List String
  startupTaskPresent : Bool
  running : Bool

/-- Embeds `ERROR_MARKER` imported from `OPSI.Backend.OpsiPXEConfd` (external
library); its value is the literal error prefix of the control protocol. -/
def ERROR_MARKER : String := "(ERROR)"

/-- Modelled from the spec: `forceHostId` (`OPSI.Types`, external library)
validates a host id — a lowercase fully-qualified DNS name, i.e. dot-joined
non-empty labels of lowercase letters, digits and `-`, with at least two
labels.  Valid ids pass through unchanged. -/
def isValidHostId (s : String) : Bool :=
  (strSplitOn s ".").length ≥ 2 &&
  (strSplitOn s ".").all (fun p =>
    !p.data.isEmpty && p.data.all (fun c => c.isLower || c.isDigit || c == '-'))

/-- Modelled from the spec: `forceHostId` — returns the id or raises. -/
def forceHostId (s : String) : Except String String :=
  if isValidHostId s then .ok s else .error ("Bad host id: '" ++ s ++ "'")

/-! ## Template renderer — `PXEConfigWriter._getPXEConfigContent`

Two flavours exist in the repository and differ only in the `linux` branch:
`src/opsipxeconfd/pxeconfigwriter.py` lines 196–242 (`processLine` /
`renderLines`) and the monolithic `src/opsipxeconfd/opsipxeconfd.py`
lines 762–815 (`processLineMono` / `renderLinesMono`).  The rendering
state carries `content`, `self.uefi` and `self._usingGrub`. -/

/-- Intermediate state of the rendering loop. -/
structure RenderState where
  content : String
  uefi : Bool
  usingGrub : Bool
deriving DecidableEq, Repr

/-- The initial rendering state (`content = ''`, flags as in `__init__`). -/
def initRenderState : RenderState := { content := "", uefi := false, usingGrub := false }

/-- The exception text of the missing-uefi-licence error
(`pxeconfigwriter.py` lines 221 and 227 — both branches use this text). -/
def uefiLicenseMsg : String :=
  "You have not licensed uefi module, please check your modules or contact info@uib.de"

/-- The exception text of the monolith's missing-secureboot error
(`opsipxeconfd.py` line 800). -/
def securebootLicenseMsg : String :=
  "You have not licensed the secureboot module, please check your modules or contact info@uib.de"

/-- Embeds `line = line.replace('%%%s%%' % propertyId, value)` folded over the
product property states, in insertion order. -/
def applySubst (props : List (String × String)) (line : String) : String :=
  props.foldl (fun l kv => strReplace l ("%" ++ kv.1 ++ "%") kv.2) line

/-- Embeds `rstrip` then property substitution — the preprocessing both renderer
loops apply to each raw template line. -/
def substLine (props : List (String × String)) (raw : String) : String :=
  applySubst props (strTrimRight raw)

/-- One append-map entry as a kernel parameter: `key=value`, or the bare
key when the value is falsy. -/
def renderAppendParam (kv : String × String) : String :=
  if !kv.2.data.isEmpty then kv.1 ++ "=" ++ kv.2 else kv.1

/-- Embeds `''.join(line.split('="')[1:])[:-1].split()` — the existing parameters
of an elilo `append="…"` line. -/
def uefiExistingParams (line : String) : List String :=
  splitWs (strDropLast (strConcat ((strSplitOn line "=\"").drop 1)))

/-- Embeds `line.lstrip().split()[1:]` — the existing parameters of a BIOS
`append …` line (and of a `linux …` line). -/
def tailParams (line : String) : List String :=
  (splitWs (strTrimLeft line)).drop 1

/-- The loop body of `_getPXEConfigContent` (`pxeconfigwriter.py`
lines 196–240): preprocess one raw line, classify it and emit its rendered
form, threading the `uefi`/`usingGrub` flags. -/
def processLine (uefiModule : Bool) (props append : List (String × String))
    (st : RenderState) (raw : String) : Except String RenderState :=
  let line := substLine props raw
  if strStartsWith (strTrimLeft line) "append" then
    let uefiNew := strStartsWith (strTrimLeft line) "append="
    let params0 := if uefiNew then uefiExistingParams line else tailParams line
    let params := append.foldl (fun ps kv => ps ++ [renderAppendParam kv]) params0
    if uefiModule && uefiNew then
      .ok { st with content := st.content ++ "append=\"" ++ strIntercalate " " params ++ "\"\n",
                    uefi := uefiNew }
    else if !uefiModule && uefiNew then
      .error uefiLicenseMsg
    else
      .ok { st with content := st.content ++ "  append " ++ strIntercalate " " params ++ "\n",
                    uefi := uefiNew }
  else if strStartsWith (strTrimLeft line) "linux" then
    if !uefiModule && st.uefi then
      .error uefiLicenseMsg
    else
      let params := append.foldl (fun ps kv => ps ++ [renderAppendParam kv]) (tailParams line)
      .ok { content := st.content ++ "linux " ++ strIntercalate " " params ++ "\n",
            uefi := true, usingGrub := true }
  else
    .ok { st with content := st.content ++ line ++ "\n" }

/-- The loop body of the monolithic `_getPXEConfigContent`
(`opsipxeconfd.py` lines 769–813); identical except that the `linux`
branch requires the secureboot module. -/
def processLineMono (uefiModule secureBootModule : Bool)
    (props append : List (String × String))
    (st : RenderState) (raw : String) : Except String RenderState :=
  let line := substLine props raw
  if strStartsWith (strTrimLeft line) "append" then
    let uefiNew := strStartsWith (strTrimLeft line) "append="
    let params0 := if uefiNew then uefiExistingParams line else tailParams line
    let params := append.foldl (fun ps kv => ps ++ [renderAppendParam kv]) params0
    if uefiModule && uefiNew then
      .ok { st with content := st.content ++ "append=\"" ++ strIntercalate " " params ++ "\"\n",
                    uefi := uefiNew }
    else if !uefiModule && uefiNew then
      .error uefiLicenseMsg
    else
      .ok { st with content := st.content ++ "  append " ++ strIntercalate " " params ++ "\n",
                    uefi := uefiNew }
  else if strStartsWith (strTrimLeft line) "linux" then
    if !secureBootModule then
      .error securebootLicenseMsg
    else
      let params := append.foldl (fun ps kv => ps ++ [renderAppendParam kv]) (tailParams line)
      .ok { content := st.content ++ "linux " ++ strIntercalate " " params ++ "\n",
            uefi := true, usingGrub := true }
  else
    .ok { st with content := st.content ++ line ++ "\n" }

/-- The rendering loop over the template lines (`pxeconfigwriter.py`). -/
def renderLines (uefiModule : Bool) (props append : List (String × String)) :
    RenderState → List String → Except String RenderState
  | st, [] => .ok st
  | st, l :: ls =>
      match processLine uefiModule props append st l with
      | .error e => .error e
      | .ok st' => renderLines uefiModule props append st' ls

/-- The rendering loop over the template lines (monolith). -/
def renderLinesMono (uefiModule secureBootModule : Bool)
    (props append : List (String × String)) :
    RenderState → List String → Except String RenderState
  | st, [] => .ok st
  | st, l :: ls =>
      match processLineMono uefiModule secureBootModule props append st l with
      | .error e => .error e
      | .ok st' => renderLinesMono uefiModule secureBootModule props append st' ls

/-! ## Writer construction — `PXEConfigWriter.__init__`

`pxeconfigwriter.py` lines 37–172 (and the identically-ordered monolith
lines 685–760): after the licensing block (whose outcome is the
`uefiModule`/`secureBootModule` parameters), check that the template file
exists, render the content, delete `pckey` from the append map, then
remove any stale pxe file and create the fifo.  The disk component of the
result is returned unchanged whenever construction raises: every raise
happens before the file operations. -/

/-- Embeds `PXEConfigWriter.__init__` from `pxeconfigwriter.py`. -/
def writerInit (fs : String → Option (List String)) (disk : List String)
    (templatefile hostId : String) (pocs : List ProductOnClient)
    (append props : List (String × String)) (pxefile : String)
    (uefiModule secureBootModule : Bool) : List String × Except String Writer :=
  match fs templatefile with
  | none => (disk, .error ("Template file '" ++ templatefile ++ "' not found"))
  | some lines =>
      match renderLines uefiModule props append initRenderState lines with
      | .error e => (disk, .error e)
      | .ok st =>
          let append' := dictDelete "pckey" append
          let disk1 := if pxefile ∈ disk then disk.erase pxefile else disk
          let disk2 := disk1 ++ [pxefile]
          (disk2, .ok {
            hostId := hostId, templatefile := templatefile, pxefile := pxefile,
            append := append', content := st.content, uefi := st.uefi,
            uefiModule := uefiModule, secureBootModule := secureBootModule,
            usingGrub := st.usingGrub, running := true, productOnClients := pocs })

/-- Embeds `PXEConfigWriter.__init__` from the monolith (used by the update
pipeline embedded below). -/
def writerInitMono (fs : String → Option (List String)) (disk : List String)
    (templatefile hostId : String) (pocs : List ProductOnClient)
    (append props : List (String × String)) (pxefile : String)
    (uefiModule secureBootModule : Bool) : List String × Except String Writer :=
  match fs templatefile with
  | none => (disk, .error ("Template file '" ++ templatefile ++ "' not found"))
  | some lines =>
      match renderLinesMono uefiModule secureBootModule props append initRenderState lines with
      | .error e => (disk, .error e)
      | .ok st =>
          let append' := dictDelete "pckey" append
          let disk1 := if pxefile ∈ disk then disk.erase pxefile else disk
          let disk2 := disk1 ++ [pxefile]
          (disk2, .ok {
            hostId := hostId, templatefile := templatefile, pxefile := pxefile,
            append := append', content := st.content, uefi := st.uefi,
            uefiModule := uefiModule, secureBootModule := secureBootModule,
            usingGrub := st.usingGrub, running := true, productOnClients := pocs })

/-! ## Daemon helpers — `Opsipxeconfd` private methods -/

/-- Embeds `Opsipxeconfd._getNameForPXEConfigFile` (`opsipxeconfd.py`
lines 597–606): `01-` + MAC with `:` → `-` when a hardware address is
known, else the `'%02X%02X%02X%02X'` rendering of the ip address, else an
exception. -/
def getNameForPXEConfigFile (host : Host) : Except String String :=
  if pyTruthy host.hardwareAddress then
    .ok ("01-" ++ strReplace (optStr host.hardwareAddress) ":" "-")
  else if pyTruthy host.ipAddress then
    match (strSplitOn (optStr host.ipAddress) ".").mapM pyInt with
    | none => .error "ValueError: invalid literal for int()"
    | some parts =>
        if parts.length == 4 then .ok (strConcat (parts.map hexByte))
        else .error "TypeError: not enough arguments for format string"
  else
    .error ("Neither hardware address nor ip address known for host '" ++ host.id ++ "'")

/-- Embeds `Opsipxeconfd._getConfigServiceAddress` (lines 608–621). -/
def getConfigServiceAddress (b : Backend) (hostId : String) : Except String String :=
  match b.configState_configserverUrl hostId with
  | [] => .ok "/rpc"
  | vs :: _ =>
      match vs with
      | [] => .error "IndexError: list index out of range"
      | v :: _ => .ok (if strEndsWith v "/rpc" then v else v ++ "/rpc")

/-- Embeds `Opsipxeconfd._getAdditionalBootimageParameters` (lines 623–637):
join the values with spaces, split the result on whitespace, and split each
option once on `=` into a lower-cased stripped key and a stripped value
(`''` when there is no `=`). -/
def getAdditionalBootimageParameters (b : Backend) (hostId : String) :
    List (String × String) :=
  match b.configState_bootimageAppend hostId with
  | [] => []
  | vs :: _ =>
      (splitWs (strIntercalate " " vs)).map (fun option =>
        match strSplitOn option "=" with
        | [] => ("", "")
        | [k] => (strToLower (strTrim k), "")
        | k :: v :: _ => (strToLower (strTrim k), strTrim v))

/-- Embeds `Opsipxeconfd._detectEliloMode` (lines 577–595): `'x86'`/`'x64'` from
the `clientconfig.dhcpd.filename` config state, `none` otherwise. -/
def detectEliloMode (b : Backend) (hostId : String) : Option String :=
  match b.configState_dhcpdFilename hostId with
  | [] => none
  | vs :: _ =>
      match vs with
      | [] => none
      | v :: _ =>
          if strContains v "elilo" then
            if strContains v "x86" then some "x86" else some "x64"
          else none

/-- The per-`ProductOnClient` loop of `Opsipxeconfd._getPxeConfigTemplate`
(lines 529–564), threading the mutable `product` and `pxeConfigTemplate`
variables. -/
def pxeTemplateLoop (b : Backend) (cfg : Config) (elilo : Option String) :
    Option Product → Option String → List ProductOnClient →
    Except String (Option String × Option Product)
  | product?, tmpl?, [] => .ok (tmpl?, product?)
  | product?, tmpl?, poc :: rest =>
      let product? :=
        match product? with
        | some p => some p
        | none => b.product_getObjects poc.productId poc.productVersion poc.packageVersion
      match product? with
      | none =>
          .error ("Product not found: " ++ poc.productId ++ "_"
            ++ optStr poc.productVersion ++ "-" ++ optStr poc.packageVersion)
      | some product =>
          let tmpl? :=
            if elilo == some "x86" then some cfg.uefiConfTemplateX86
            else if elilo == some "x64" then some cfg.uefiConfTemplateX64
            else tmpl?
          let tmpl? :=
            if pyTruthy product.pxeConfigTemplate then
              if elilo.isNone then
                if pyTruthy tmpl? && !(tmpl? == product.pxeConfigTemplate) then tmpl?
                else product.pxeConfigTemplate
              else tmpl?
            else tmpl?
          pxeTemplateLoop b cfg elilo (some product) tmpl? rest

/-- Embeds `Opsipxeconfd._getPxeConfigTemplate` (lines 517–575): detect elilo,
run the selection loop, fall back to the default template and resolve a
relative path against the default template's directory. -/
def getPxeConfigTemplate (b : Backend) (cfg : Config) (hostId : String)
    (pocs : List ProductOnClient) : Except String (String × Option Product) :=
  let elilo := detectEliloMode b hostId
  match pxeTemplateLoop b cfg elilo none none pocs with
  | .error e => .error e
  | .ok (tmpl?, product?) =>
      let tmpl := if pyTruthy tmpl? then optStr tmpl? else cfg.pxeConfTemplate
      let tmpl :=
        if strStartsWith tmpl "/" then tmpl
        else osPathJoin (osPathDirname cfg.pxeConfTemplate) tmpl
      .ok (tmpl, product?)

/-! ## Writer registry operations -/

/-- The writers registered for a host (`[pcw for pcw in self._pxeConfigWriters
if pcw.hostId == hostId]`). -/
def writersFor (ws : List Writer) (hostId : String) : List Writer :=
  ws.filter (fun w => w.hostId == hostId)

/-- Embeds `Opsipxeconfd._removeCurrentConfigWriters` (lines 466–489): under the
registry lock collect and remove every writer of `hostId`; with the lock
released, stop each collected writer and wait for it to terminate (the
`is_alive` poll / `join(1)`).  Returns the new state, the collected
writers (with their `_running` flag cleared by `stop()`), and the action
trace. -/
def removeCurrentConfigWriters (s : DaemonState) (hostId : String) :
    DaemonState × List Writer × List Action :=
  let current := s.pxeConfigWriters.filter (fun w => w.hostId == hostId)
  let kept := s.pxeConfigWriters.filter (fun w => !(w.hostId == hostId))
  let tr := [Action.lockAcquire, Action.removeFromRegistry hostId, Action.lockRelease]
    ++ current.flatMap (fun w => [Action.writerStop w.hostId, Action.writerJoin w.hostId])
  ({ s with pxeConfigWriters := kept },
   current.map (fun w => { w with running := false }), tr)

/-- The `for pcw in self._pxeConfigWriters:` scan inside the
`os.path.exists(pxefile)` block of `updateBootConfiguration`
(lines 383–392): raise if any registered writer claims uefi without the
licence; on a path match, return (Python `return`, modelled `.ok (some ())`)
for the same host and raise the address-collision error for a different
host. -/
def scanWriters (pxefile hostid : String) : List Writer → Except String (Option Unit)
  | [] => .ok none
  | w :: ws =>
      if w.uefi && !w.uefiModule then
        .error "Should use uefi netboot, but uefi module is not licensed."
      else if w.pxefile == pxefile then
        if hostid == w.hostId then .ok (some ())
        else
          .error ("PXE boot configuration '" ++ pxefile
            ++ "' already exists. Clients '" ++ hostid ++ "' and '" ++ w.hostId
            ++ "' using same address?")
      else scanWriters pxefile hostid ws

/-! ## The update pipeline — `Opsipxeconfd.updateBootConfiguration`

`opsipxeconfd.py` lines 300–464, specialised to `cacheFile=None` (the
default; `_readCachedData(None)` returns `{}`, so every
`cachedData[...]` access takes its `KeyError` branch).

`updateCore` performs everything after `_removeCurrentConfigWriters`,
reading the already-filtered registry; it returns the command result, the
newly created writer (if any), the trace of the remaining actions and the
new disk.  `updateBootConfiguration` glues validation, removal and core
together; the only registry mutations are the removal and the final
append, matching the source. -/

/-- Embeds `updateBootConfiguration` after writer removal (lines 307–461). -/
def updateCore (b : Backend) (cfg : Config) (registry : List Writer)
    (disk : List String) (hostId : String) :
    Except String (Option String) × Option Writer × List Action × List String :=
  let pocs := b.productOnClient_getObjects hostId
  if pocs.isEmpty then (.ok (some "Boot configuration updated"), none, [], disk)
  else
    match b.host_getObjects hostId with
    | none => (.error ("Host '" ++ hostId ++ "' not found"), none, [], disk)
    | some host =>
        let newPocs := pocs.filterMap (fun poc =>
          match b.productOnDepot_getObjects poc.productId cfg.depotId with
          | none => none
          | some pod => some { poc with
              productVersion := some pod.productVersion,
              packageVersion := some pod.packageVersion })
        if newPocs.isEmpty then (.ok (some "Boot configuration updated"), none, [], disk)
        else
          match getPxeConfigTemplate b cfg hostId newPocs with
          | .error e => (.error e, none, [], disk)
          | .ok (pxeConfigTemplate, product?) =>
              match getNameForPXEConfigFile host with
              | .error e => (.error e, none, [], disk)
              | .ok pxeConfigName =>
                  let pxefile := osPathJoin cfg.pxeDir pxeConfigName
                  let scanStep : Except String (Option Unit) :=
                    if pxefile ∈ disk then scanWriters pxefile host.id registry
                    else .ok none
                  match scanStep with
                  | .error e => (.error e, none, [], disk)
                  | .ok (some ()) => (.ok none, none, [], disk)
                  | .ok none =>
                      let disk := if pxefile ∈ disk then disk.erase pxefile else disk
                      match getConfigServiceAddress b hostId with
                      | .error e => (.error e, none, [], disk)
                      | .ok serviceAddress =>
                          match product? with
                          | none =>
                              (.error "AttributeError: 'NoneType' object has no attribute 'id'",
                               none, [], disk)
                          | some product =>
                              let append0 : List (String × String) := [
                                ("pckey", optStr host.opsiHostKey),
                                ("hn", (strSplitOn hostId ".").headD ""),
                                ("dn", strIntercalate "." ((strSplitOn hostId ".").drop 1)),
                                ("product", product.id),
                                ("service", serviceAddress)]
                              let append1 := (getAdditionalBootimageParameters b hostId).foldl
                                (fun m kv => dictInsert m kv.1 kv.2) append0
                              let productIds := newPocs.map (fun poc => poc.productId)
                              let props :=
                                if productIds.isEmpty then []
                                else b.productPropertyStates hostId productIds
                              match writerInitMono cfg.fs disk pxeConfigTemplate hostId newPocs
                                  append1 props pxefile b.uefiModule b.secureBootModule with
                              | (disk', .error e) => (.error e, none, [], disk')
                              | (disk', .ok w) =>
                                  (.ok (some "Boot configuration updated"), some w,
                                   [Action.writerInsert hostId], disk')

/-- Embeds `Opsipxeconfd.updateBootConfiguration` (lines 300–464) with
`cacheFile=None`: validate the host id, run the removal protocol, then the
core; append the new writer to the registry if one was created. -/
def updateBootConfiguration (b : Backend) (s : DaemonState) (hostIdRaw : String) :
    DaemonState × List Action × Except String (Option String) :=
  match forceHostId hostIdRaw with
  | .error e => (s, [], .error e)
  | .ok hostId =>
      let (s1, _removed, tr1) := removeCurrentConfigWriters s hostId
      match updateCore b s1.config s1.pxeConfigWriters s1.disk hostId with
      | (res, newW, tr2, disk') =>
          ({ s1 with
             pxeConfigWriters := s1.pxeConfigWriters ++ (match newW with
               | some w => [w] | none => []),
             disk := disk' },
           tr1 ++ tr2, res)

/-! ## Completion callback — `Opsipxeconfd.pxeConfigWriterCallback`

`opsipxeconfd.py` lines 235–277.  The `for i, poc in enumerate(...)` loop
mutates the iterated list in place (`pcw.productOnClients[i] = ...` /
`del pcw.productOnClients[i]`); CPython's list iterator then serves the
shifted elements, and the `pcw.productOnClients[i]` accesses after a `del`
can raise `IndexError`.  The loop is embedded index-faithfully; an error
result carries the partially mutated list. -/

/-- The action-progress text set by the callback (line 268). -/
def callbackProgressMsg : String := "pxe boot configuration read"

/-- The callback's per-element loop (lines 254–272).  `nonDefaultTemplate`
is `pcw.templatefile != self.config['pxeConfTemplate']`.  Structural
recursion on `fuel`, with `fuel + i ≥ lst.length + 1` maintained at every
call (each iteration raises `i` by one, spends one unit of fuel and never
lengthens the list); when `fuel = 0` that bound forces `i > lst.length`,
so the fallback returns the same `.ok` as the loop-exit branch. -/
def callbackLoop (refetch : String → String → List ProductOnClient)
    (nonDefaultTemplate : Bool) :
    Nat → Nat → List ProductOnClient → Bool →
    Except (String × List ProductOnClient) (List ProductOnClient × Bool)
  | 0, _i, lst, gotAlways => .ok (lst, gotAlways)
  | fuel + 1, i, lst, gotAlways =>
      if h : i < lst.length then
        let poc := lst.get ⟨i, h⟩
        match refetch poc.clientId poc.productId with
        | newPoc :: _ =>
            let cur1 := { newPoc with actionProgress := callbackProgressMsg }
            let gotAlways1 := gotAlways || (cur1.actionRequest == "always")
            let cur2 :=
              if nonDefaultTemplate && !gotAlways1 then { cur1 with actionRequest := "none" }
              else cur1
            callbackLoop refetch nonDefaultTemplate fuel (i+1) (lst.set i cur2) gotAlways1
        | [] =>
            let lst1 := lst.eraseIdx i
            if lst1.isEmpty then
              callbackLoop refetch nonDefaultTemplate fuel (i+1) lst1 gotAlways
            else
              if h2 : i < lst1.length then
                let cur := lst1.get ⟨i, h2⟩
                let cur1 := { cur with actionProgress := callbackProgressMsg }
                let gotAlways1 := gotAlways || (cur1.actionRequest == "always")
                let cur2 :=
                  if nonDefaultTemplate && !gotAlways1 then { cur1 with actionRequest := "none" }
                  else cur1
                callbackLoop refetch nonDefaultTemplate fuel (i+1) (lst1.set i cur2) gotAlways1
              else .error ("IndexError: list index out of range", lst1)
      else .ok (lst, gotAlways)

/-- Result of the completion callback: registry after removal, the
writer's `productOnClients` list after the loop, the argument of
`productOnClient_updateObjects` (empty when not called), whether
`updateBootConfiguration` was re-invoked (`gotAlways`), a raised
exception, and the publish/re-trigger trace. -/
structure CallbackResult where
  registry : List Writer
  pocs : List ProductOnClient
  published : List ProductOnClient
  updateCalled : Bool
  error : Option String
  trace : List Action
deriving Repr

/-- Python `list.remove(x)` wrapped in `try/except ValueError: pass` —
remove the first occurrence if present. -/
def listRemoveFirst [BEq α] : List α → α → List α
  | [], _ => []
  | x :: xs, a => if x == a then xs else x :: listRemoveFirst xs a

/-- Embeds `Opsipxeconfd.pxeConfigWriterCallback` (lines 235–277): de-register the
writer, run the renew/progress/clear loop, publish the surviving objects,
and re-invoke `updateBootConfiguration` for the writer's host when a
renewed object requested `always` (recorded as `Action.updateCall`). -/
def pxeConfigWriterCallback (b : Backend) (defaultTemplate : String)
    (registry : List Writer) (pcw : Writer) : CallbackResult :=
  let registry' := listRemoveFirst registry pcw
  match callbackLoop b.productOnClient_refetch (!(pcw.templatefile == defaultTemplate))
      (pcw.productOnClients.length + 1) 0 pcw.productOnClients false with
  | .error (e, lst) =>
      { registry := registry', pocs := lst, published := [],
        updateCalled := false, error := some e, trace := [] }
  | .ok (lst, gotAlways) =>
      { registry := registry', pocs := lst,
        published := if lst.isEmpty then [] else lst,
        updateCalled := gotAlways, error := none,
        trace := (if lst.isEmpty then [] else [Action.publish])
              ++ (if gotAlways then [Action.updateCall pcw.hostId] else []) }

/-- Embeds `Opsipxeconfd.pxeConfigWriterCallback` together with the
re-invocation it performs on the daemon state (line 277's
`self.updateBootConfiguration(pcw.hostId)` executed, not merely recorded):
run the callback against the state's registry and configured default
template, commit the de-registration, and — when an `"always"` request was
observed (`gotAlways`) — execute the update for the writer's host.
Returns the final daemon state, the callback result, and the combined
action trace (the callback's publish/re-trigger trace followed by the
executed update's trace). -/
def pxeConfigWriterCallbackRun (b : Backend) (s : DaemonState) (pcw : Writer) :
    DaemonState × CallbackResult × List Action :=
  if (pxeConfigWriterCallback b s.config.pxeConfTemplate s.pxeConfigWriters pcw).updateCalled
  then
    ((updateBootConfiguration b
        { s with pxeConfigWriters :=
            (pxeConfigWriterCallback b s.config.pxeConfTemplate s.pxeConfigWriters
              pcw).registry }
        pcw.hostId).1,
     pxeConfigWriterCallback b s.config.pxeConfTemplate s.pxeConfigWriters pcw,
     (pxeConfigWriterCallback b s.config.pxeConfTemplate s.pxeConfigWriters pcw).trace
       ++ (updateBootConfiguration b
        { s with pxeConfigWriters :=
            (pxeConfigWriterCallback b s.config.pxeConfTemplate s.pxeConfigWriters
              pcw).registry }
        pcw.hostId).2.1)
  else
    ({ s with pxeConfigWriters :=
        (pxeConfigWriterCallback b s.config.pxeConfTemplate s.pxeConfigWriters pcw).registry },
     pxeConfigWriterCallback b s.config.pxeConfTemplate s.pxeConfigWriters pcw,
     (pxeConfigWriterCallback b s.config.pxeConfTemplate s.pxeConfigWriters pcw).trace)

/-! ## Daemon stop, status, and the control command dispatcher -/

/-- Embeds `Opsipxeconfd.stop` (`opsipxeconfd.py` lines 100–118): stop and join
the startup task if it exists, close the control socket and clear
`self._running`.  (The method does not touch `self._pxeConfigWriters`.) -/
def stopDaemon (s : DaemonState) : DaemonState × List Action :=
  ({ s with running := false },
   (if s.startupTaskPresent then [Action.startupStop, Action.startupJoin] else [])
     ++ [Action.socketClose])

/-- Embeds `Opsipxeconfd.status` (lines 279–298), with the connection registry and
the wall-clock timestamps abstracted away (no claim concerns either): the
writer block lists each registered writer in order. -/
def daemonStatus (s : DaemonState) : String :=
  "opsipxeconfd status:\n"
  ++ "\n" ++ toString s.pxeConfigWriters.length ++ " boot configuration(s) set\n"
  ++ strConcat (s.pxeConfigWriters.map (fun pcw =>
       "Boot config for client '" ++ pcw.hostId ++ "' (path '" ++ pcw.pxefile ++ "') set\n"))

/-- Modelled from the spec: `Opsipxeconfd.removeBootConfiguration` is not
present in `src/` (the monolithic `opsipxeconfd.py` predates the `remove`
command; only its caller `ClientConnection._processCommand`,
`util.py` lines 266–270, is).  Per spec §4.4/§4.7 it applies the
replacement protocol — collect and drop the host's writers under the lock,
then stop and join each — and replies `"Boot configuration removed"`. -/
def removeBootConfiguration (s : DaemonState) (hostId : String) :
    DaemonState × List Action × String :=
  match removeCurrentConfigWriters s hostId with
  | (s1, _removed, tr) => (s1, tr, "Boot configuration removed")

/-- An `(ERROR)`-prefixed reply (`f"{ERROR_MARKER}: {err}"`). -/
def errReply (e : String) : String := ERROR_MARKER ++ ": " ++ e

/-- Embeds `ClientConnection._processCommand` (`util.py` lines 229–275).  The
argument splitting (`cmd.split(None, 1)` followed by `shlex.split`) is
embedded as whitespace splitting, which coincides with it for the
quote-free commands modelled.  The two-argument `update` form behaves like
the one-argument form because `_readCachedData` of an absent cache file
returns `{}`.  Replies are `some` strings; `none` is Python's `None`
(returned when `updateBootConfiguration` hits its bare `return`). -/
def processCommand (b : Backend) (s : DaemonState) (cmd : String) :
    DaemonState × List Action × Option String :=
  match splitWs cmd with
  | [] => (s, [], some (errReply "IndexError: list index out of range"))
  | command :: args =>
      if command == "stop" then
        match stopDaemon s with
        | (s', tr) => (s', tr, some "opsipxeconfd is going down")
      else if command == "status" then (s, [], some (daemonStatus s))
      else if command == "update" then
        match args with
        | [a] =>
            match forceHostId a with
            | .error e => (s, [], some (errReply e))
            | .ok h =>
                match updateBootConfiguration b s h with
                | (s', tr, .error e) => (s', tr, some (errReply e))
                | (s', tr, .ok r?) => (s', tr, r?)
        | [a, _cacheFile] =>
            match forceHostId a with
            | .error e => (s, [], some (errReply e))
            | .ok h =>
                match updateBootConfiguration b s h with
                | (s', tr, .error e) => (s', tr, some (errReply e))
                | (s', tr, .ok r?) => (s', tr, r?)
        | _ => (s, [], some (errReply "bad arguments for command 'update', needs <hostId>"))
      else if command == "remove" then
        match args with
        | [a] =>
            match forceHostId a with
            | .error e => (s, [], some (errReply e))
            | .ok h =>
                match removeBootConfiguration s h with
                | (s', tr, r) => (s', tr, some r)
        | _ => (s, [], some (errReply "bad arguments for command 'remove', needs <hostId>"))
      else (s, [], some (errReply ("Command '" ++ cmd ++ "' not supported")))

/-! ## Derived-equality instances, specification mirrors and concrete scenario data -/

deriving instance DecidableEq for Except

/-- A one-line filesystem for the C2 counterexample: template `install`
holds a single BIOS append line. -/
def fsC2 : String → Option (List String) :=
  fun t => if t == "install" then some ["  append initrd=x"] else none

/-- A one-line elilo filesystem for the C7 witness. -/
def fsC2Elilo : String → Option (List String) :=
  fun t => if t == "install-elilo" then some ["append=\"initrd=y\""] else none

/-- The re-fetches the callback loop will perform, when every one of them
returns at least one object: the first returned object for each original
`ProductOnClient`, in order (`none` when some re-fetch comes back empty). -/
def refetchAll (refetch : String → String → List ProductOnClient) :
    List ProductOnClient → Option (List ProductOnClient)
  | [] => some []
  | p :: rest =>
      match refetch p.clientId p.productId with
      | [] => none
      | q :: _ =>
          match refetchAll refetch rest with
          | none => none
          | some qs => some (q :: qs)

/-- The callback's actual per-object transformation, written out as the
amended claim states it: every re-fetched object gets
`action_progress := "pxe boot configuration read"`, and its action request
is cleared to `"none"` exactly when the writer's template file differs
from the configured default template (`nonDefault`) *and* no object with
action request `"always"` has been seen up to and including this one. -/
def callbackClearSpec (nonDefault : Bool) (seen0 : Bool) :
    List ProductOnClient → List ProductOnClient
  | [] => []
  | p :: rest =>
      let seen := seen0 || (p.actionRequest == "always")
      let p1 := { p with actionProgress := callbackProgressMsg }
      let p2 := if nonDefault && !seen then { p1 with actionRequest := "none" } else p1
      p2 :: callbackClearSpec nonDefault seen rest

/-- The `ProductOnClient` used by the C4/C10 concrete scenarios: pending
`setup` action. -/
def pocSetup : ProductOnClient :=
  { clientId := "pc01.lab.example", productId := "p1", actionRequest := "setup",
    actionProgress := "", productVersion := none, packageVersion := none }

/-- A backend whose re-fetch always returns `pocSetup` (other oracles are
irrelevant to the callback). -/
def bC4 : Backend :=
  { productOnClient_getObjects := fun _ => [],
    productOnClient_refetch := fun _ _ => [pocSetup],
    host_getObjects := fun _ => none,
    productOnDepot_getObjects := fun _ _ => none,
    product_getObjects := fun _ _ _ => none,
    configState_dhcpdFilename := fun _ => [],
    configState_configserverUrl := fun _ => [],
    configState_bootimageAppend := fun _ => [],
    productPropertyStates := fun _ _ => [],
    uefiModule := true, secureBootModule := true }

/-- A writer for `pc01.lab.example` that used the *default* template. -/
def pcwC4 : Writer :=
  { hostId := "pc01.lab.example", templatefile := "/tftpboot/linux/pxelinux.cfg/install",
    pxefile := "/tftpboot/linux/pxelinux.cfg/01-aa-bb-cc-dd-ee-ff", append := [],
    content := "", uefi := false, uefiModule := true, secureBootModule := true,
    usingGrub := false, running := true, productOnClients := [pocSetup] }

/-- The `"always"` variant of `pocSetup`. -/
def pocAlways : ProductOnClient :=
  { clientId := "pc01.lab.example", productId := "p1", actionRequest := "always",
    actionProgress := "", productVersion := none, packageVersion := none }

/-- A backend whose re-fetch always returns `pocAlways`. -/
def bC10 : Backend :=
  { productOnClient_getObjects := fun _ => [],
    productOnClient_refetch := fun _ _ => [pocAlways],
    host_getObjects := fun _ => none,
    productOnDepot_getObjects := fun _ _ => none,
    product_getObjects := fun _ _ _ => none,
    configState_dhcpdFilename := fun _ => [],
    configState_configserverUrl := fun _ => [],
    configState_bootimageAppend := fun _ => [],
    productPropertyStates := fun _ _ => [],
    uefiModule := true, secureBootModule := true }

/-- A writer whose product on client has an `"always"` request. -/
def pcwC10 : Writer :=
  { hostId := "pc01.lab.example", templatefile := "/tftpboot/linux/pxelinux.cfg/install",
    pxefile := "/tftpboot/linux/pxelinux.cfg/01-aa-bb-cc-dd-ee-ff", append := [],
    content := "", uefi := false, uefiModule := true, secureBootModule := true,
    usingGrub := false, running := true, productOnClients := [pocAlways] }

/-- Is an action one of the writer-draining actions (`stop()`/join on a
`PXEConfigWriter`)? -/
def isWriterAction : Action → Bool
  | .writerStop _ => true
  | .writerJoin _ => true
  | _ => false

/-- A config for the C8 scenario (contents irrelevant to `stop`). -/
def cfgC8 : Config :=
  { pxeDir := "/tftpboot/linux/pxelinux.cfg",
    pxeConfTemplate := "/tftpboot/linux/pxelinux.cfg/install",
    uefiConfTemplateX86 := "/tftpboot/linux/pxelinux.cfg/install-elilo-x86",
    uefiConfTemplateX64 := "/tftpboot/linux/pxelinux.cfg/install-elilo-x64",
    depotId := "depot.lab.example", fs := fun _ => none }

/-- A live registered writer for the C8 scenario. -/
def wC8 : Writer :=
  { hostId := "pc01.lab.example", templatefile := "/tftpboot/linux/pxelinux.cfg/install",
    pxefile := "/tftpboot/linux/pxelinux.cfg/01-aa-bb-cc-dd-ee-ff", append := [],
    content := "c", uefi := false, uefiModule := true, secureBootModule := true,
    usingGrub := false, running := true, productOnClients := [] }

/-- The C8 failing input: a running daemon with one live writer. -/
def sC8 : DaemonState :=
  { config := cfgC8, pxeConfigWriters := [wC8],
    disk := ["/tftpboot/linux/pxelinux.cfg/01-aa-bb-cc-dd-ee-ff"],
    startupTaskPresent := true, running := true }

/-- A running daemon state holding `pcwC10` whose backend is `bC10`:
the writer just finished, its pxe file has been consumed, and the
backend's `productOnClient_getObjects` no longer reports any netboot
product for the host. -/
def sC10 : DaemonState :=
  { config := cfgC8, pxeConfigWriters := [pcwC10], disk := [],
    startupTaskPresent := true, running := true }

/-- A daemon state with one writer for `pc02.lab.example` (used by the C9
witness and the C3 witness scenario). -/
def wC3 : Writer :=
  { hostId := "pc02.lab.example", templatefile := "/tftpboot/linux/pxelinux.cfg/install",
    pxefile := "/tftpboot/linux/pxelinux.cfg/01-aa-bb-cc-dd-ee-ff", append := [],
    content := "c", uefi := false, uefiModule := true, secureBootModule := true,
    usingGrub := false, running := true, productOnClients := [] }

/-- Daemon state holding `wC3` with its pxe file on disk. -/
def sC3 : DaemonState :=
  { config := cfgC8, pxeConfigWriters := [wC3],
    disk := ["/tftpboot/linux/pxelinux.cfg/01-aa-bb-cc-dd-ee-ff"],
    startupTaskPresent := true, running := true }

/-- The host colliding with `wC3`'s pxe file in the C3 witness: a
*different* host id resolving to the same MAC-derived file name. -/
def hostC3 : Host :=
  { id := "pc01.lab.example", hardwareAddress := some "aa:bb:cc:dd:ee:ff",
    ipAddress := none, systemUUID := none, opsiHostKey := some "k" }

/-- The depot record of product `p1` in the C3 witness. -/
def podC3 : ProductOnDepot :=
  { productId := "p1", productVersion := "1.0", packageVersion := "2" }

/-- The netboot product `p1` of the C3 witness (no special template). -/
def prodC3 : Product := { id := "p1", pxeConfigTemplate := none }

/-- Backend for the C3 witness: `pc01.lab.example` has a pending netboot
`setup` for product `p1`, available on the depot. -/
def bC3 : Backend :=
  { productOnClient_getObjects := fun x => if x == "pc01.lab.example" then [pocSetup] else [],
    productOnClient_refetch := fun _ _ => [],
    host_getObjects := fun x => if x == "pc01.lab.example" then some hostC3 else none,
    productOnDepot_getObjects := fun p _ => if p == "p1" then some podC3 else none,
    product_getObjects := fun p pv kv =>
      if p == "p1" && (pv == some "1.0") && (kv == some "2") then some prodC3 else none,
    configState_dhcpdFilename := fun _ => [],
    configState_configserverUrl := fun _ => [["https://srv:4447"]],
    configState_bootimageAppend := fun _ => [],
    productPropertyStates := fun _ _ => [],
    uefiModule := true, secureBootModule := true }

/-- The zero-or-one new writers an update appends to the registry. -/
def optToList : Option Writer → List Writer
  | some w => [w]
  | none => []

/-! ## Generic lemmas -/

theorem listStartsWith_append_self (x y : List Char) : listStartsWith (x ++ y) x = true := by
  induction x with
  | nil => cases y <;> rfl
  | cons a as ih => simp [listStartsWith, ih]

theorem strStartsWith_append (a b : String) : strStartsWith (a ++ b) a = true := by
  unfold strStartsWith
  rw [String.data_append]
  exact listStartsWith_append_self a.data b.data

theorem listStartsWith_of_append (l p q : List Char)
    (h : listStartsWith l (p ++ q) = true) : listStartsWith l p = true := by
  induction p generalizing l with
  | nil => cases l <;> rfl
  | cons a as ih =>
      cases l with
      | nil => simp [listStartsWith] at h
      | cons c cs =>
          simp only [List.cons_append, listStartsWith, Bool.and_eq_true] at h ⊢
          exact ⟨h.1, ih cs h.2⟩

theorem strStartsWith_append_eq (s : String)
    (h : strStartsWith s "append=" = true) : strStartsWith s "append" = true := by
  unfold strStartsWith at h ⊢
  have hd : ("append=").data = ("append").data ++ ['='] := by decide
  rw [hd] at h
  exact listStartsWith_of_append _ _ _ h

theorem foldl_push_map {α β : Type} (f : α → β) (m : List α) (init : List β) :
    m.foldl (fun ps kv => ps ++ [f kv]) init = init ++ m.map f := by
  induction m generalizing init with
  | nil => simp
  | cons a as ih => simp [List.foldl_cons, ih]

theorem dictLookup_dictDelete (k : String) (m : List (String × String)) :
    dictLookup k (dictDelete k m) = none := by
  induction m with
  | nil => rfl
  | cons kv r ih =>
      by_cases h : kv.1 = k
      · simp [dictDelete, h, ih]
      · have hb : (kv.1 == k) = false := by simp [h]
        simp [dictDelete, dictLookup, hb, ih]

theorem filter_filter_not_beq (l : List Writer) (h : String) :
    (l.filter (fun w => !(w.hostId == h))).filter (fun w => w.hostId == h) = [] := by
  rw [List.filter_filter]
  have : (fun w : Writer => (w.hostId == h) && !(w.hostId == h)) = fun _ => false := by
    funext w; exact Bool.and_not_self _
  rw [this]
  exact List.filter_false l

theorem length_filter_filter_le (p q : Writer → Bool) (l : List Writer) :
    ((l.filter q).filter p).length ≤ (l.filter p).length :=
  List.Sublist.length_le (List.Sublist.filter p (List.filter_sublist l))

theorem writerInsert_not_mem_removal (h x : String) (ws : List Writer) :
    Action.writerInsert x ∉
      ([Action.lockAcquire, Action.removeFromRegistry h, Action.lockRelease]
        ++ ws.flatMap (fun w => [Action.writerStop w.hostId, Action.writerJoin w.hostId])) := by
  intro hmem
  rw [List.mem_append] at hmem
  rcases hmem with hmem | hmem
  · simp at hmem
  · rw [List.mem_flatMap] at hmem
    rcases hmem with ⟨w, _, hmem⟩
    simp at hmem

theorem forceHostId_valid (h : String) (hv : isValidHostId h = true) :
    forceHostId h = .ok h := by
  unfold forceHostId
  rw [hv]
  rfl

/-! ## Claim theorems -/

/-- C5 — Append-line canonical rendering: for every template line which
(after right-trimming and property substitution) is classified as an
append line, both renderers emit `append="<space-joined params>"\n` when
the line has the UEFI form `append=` (and the uefi module is licensed, the
case in which rendering succeeds), and two leading spaces plus
`append <space-joined params>\n` otherwise; the parameters are the line's
existing parameters followed by the append-map entries in insertion order,
an entry with an empty value rendering as the bare key. -/
theorem append_line_canonical_rendering
    (uefiModule secureBootModule : Bool) (props append : List (String × String))
    (st : RenderState) (raw : String)
    (hcls : strStartsWith (strTrimLeft (substLine props raw)) "append" = true) :
    (strStartsWith (strTrimLeft (substLine props raw)) "append=" = true →
      uefiModule = true →
      processLine uefiModule props append st raw =
        .ok { st with
          content := st.content ++ "append=\""
            ++ strIntercalate " " (uefiExistingParams (substLine props raw)
                 ++ append.map renderAppendParam) ++ "\"\n",
          uefi := true }
      ∧ processLineMono uefiModule secureBootModule props append st raw =
        .ok { st with
          content := st.content ++ "append=\""
            ++ strIntercalate " " (uefiExistingParams (substLine props raw)
                 ++ append.map renderAppendParam) ++ "\"\n",
          uefi := true })
    ∧ (strStartsWith (strTrimLeft (substLine props raw)) "append=" = false →
      processLine uefiModule props append st raw =
        .ok { st with
          content := st.content ++ "  append "
            ++ strIntercalate " " (tailParams (substLine props raw)
                 ++ append.map renderAppendParam) ++ "\n",
          uefi := false }
      ∧ processLineMono uefiModule secureBootModule props append st raw =
        .ok { st with
          content := st.content ++ "  append "
            ++ strIntercalate " " (tailParams (substLine props raw)
                 ++ append.map renderAppendParam) ++ "\n",
          uefi := false }) := by
  constructor
  · intro h1 h2
    subst h2
    constructor
    · simp only [processLine, hcls, h1, if_true, Bool.true_and, Bool.not_true,
        Bool.false_and, if_false, foldl_push_map]
    · simp only [processLineMono, hcls, h1, if_true, Bool.true_and, Bool.not_true,
        Bool.false_and, if_false, foldl_push_map]
  · intro h1
    constructor
    · simp only [processLine, hcls, h1, if_true, if_false, Bool.and_false,
        Bool.false_eq_true, foldl_push_map]
    · simp only [processLineMono, hcls, h1, if_true, if_false, Bool.and_false,
        Bool.false_eq_true, foldl_push_map]

/-- C5 witness — the BIOS append form at a concrete line, append map
`{pckey: 123, lang: ∅}` (the empty value renders bare). -/
theorem append_line_canonical_rendering_witness :
    processLine true [] [("pckey", "123"), ("lang", "")] initRenderState "  append initrd=x " =
      .ok { initRenderState with
        content := "" ++ "  append "
          ++ strIntercalate " " (tailParams (substLine [] "  append initrd=x ")
               ++ [("pckey", "123"), ("lang", "")].map renderAppendParam) ++ "\n",
        uefi := false } :=
  ((append_line_canonical_rendering true true [] [("pckey", "123"), ("lang", "")]
      initRenderState "  append initrd=x " (by decide)).2 (by decide)).1


/-- C2 counterexample — the claim says the `pckey` entry is removed
from the append map *before* the template is rendered, so the rendered
append line contains no `pckey`.  At this concrete input the construction
succeeds and the rendered content's append line *does* contain
`pckey=123` (deletion happens only after rendering); only the stored map
is free of it. -/
theorem pckey_removed_before_render_counterexample :
    ((writerInit fsC2 [] "install" "pc01.lab.example" [] [("pckey", "123"), ("hn", "pc01")]
        [] "/tftpboot/linux/pxelinux.cfg/01-aa-bb-cc-dd-ee-ff" false false).2.map
      (fun w => (w.content, w.append)))
      = .ok ("  append initrd=x pckey=123 hn=pc01\n", [("hn", "pc01")])
    ∧ strContains "  append initrd=x pckey=123 hn=pc01\n" "pckey=123" = true := by
  constructor
  · rfl
  · decide

/-- C2 (amended) — the `pckey` entry is removed from the append map
*after* the template is rendered: whenever construction succeeds, the
writer's stored append map is the input map with `pckey` deleted (so no
`pckey` key remains in it), while the stored content is the rendering
computed with the *full* append map, `pckey` included. -/
theorem pckey_removed_after_render
    (fs : String → Option (List String)) (disk : List String)
    (templatefile hostId : String) (pocs : List ProductOnClient)
    (append props : List (String × String)) (pxefile : String)
    (uefiModule secureBootModule : Bool) (d' : List String) (w : Writer)
    (hok : writerInit fs disk templatefile hostId pocs append props pxefile
        uefiModule secureBootModule = (d', .ok w)) :
    dictLookup "pckey" w.append = none
    ∧ w.append = dictDelete "pckey" append
    ∧ ∀ lines, fs templatefile = some lines →
        ∃ st, renderLines uefiModule props append initRenderState lines = .ok st
          ∧ w.content = st.content := by
  unfold writerInit at hok
  split at hok
  · exact absurd (congrArg Prod.snd hok) (by simp)
  · rename_i lines0 hfs
    split at hok
    · exact absurd (congrArg Prod.snd hok) (by simp)
    · rename_i st0 hrender
      have hw : w = {
          hostId := hostId, templatefile := templatefile, pxefile := pxefile,
          append := dictDelete "pckey" append, content := st0.content, uefi := st0.uefi,
          uefiModule := uefiModule, secureBootModule := secureBootModule,
          usingGrub := st0.usingGrub, running := true, productOnClients := pocs } := by
        have := congrArg Prod.snd hok
        simp only at this
        exact (Except.ok.injEq _ _).mp this.symm
      refine ⟨?_, ?_, ?_⟩
      · rw [hw]; exact dictLookup_dictDelete "pckey" append
      · rw [hw]
      · intro lines hlines
        rw [hfs] at hlines
        cases hlines
        exact ⟨st0, hrender, by rw [hw]⟩

/-- C2 (amended) witness — at the counterexample's concrete input, the
stored append map holds no `pckey` and the content equals the rendering
with the full map. -/
theorem pckey_removed_after_render_witness :
    dictLookup "pckey"
      ((writerInit fsC2 [] "install" "pc01.lab.example" []
          [("pckey", "123"), ("hn", "pc01")] []
          "/tftpboot/linux/pxelinux.cfg/01-aa-bb-cc-dd-ee-ff" false false).2.toOption.map
        Writer.append |>.getD []) = none := by
  have h := pckey_removed_after_render fsC2 []
    "install" "pc01.lab.example" []
    [("pckey", "123"), ("hn", "pc01")] []
    "/tftpboot/linux/pxelinux.cfg/01-aa-bb-cc-dd-ee-ff" false false
    ["/tftpboot/linux/pxelinux.cfg/01-aa-bb-cc-dd-ee-ff"]
    { hostId := "pc01.lab.example", templatefile := "install",
      pxefile := "/tftpboot/linux/pxelinux.cfg/01-aa-bb-cc-dd-ee-ff",
      append := [("hn", "pc01")], content := "  append initrd=x pckey=123 hn=pc01\n",
      uefi := false, uefiModule := false, secureBootModule := false,
      usingGrub := false, running := true, productOnClients := [] }
    (by decide)
  exact h.1

theorem processLine_error_msg (uefiModule : Bool) (props append : List (String × String))
    (st : RenderState) (raw : String) (e : String)
    (herr : processLine uefiModule props append st raw = .error e) :
    e = uefiLicenseMsg := by
  unfold processLine at herr
  cases hA : strStartsWith (strTrimLeft (substLine props raw)) "append" <;>
  cases hE : strStartsWith (strTrimLeft (substLine props raw)) "append=" <;>
  cases hU : uefiModule <;>
  cases hS : st.uefi <;>
  cases hL : strStartsWith (strTrimLeft (substLine props raw)) "linux" <;>
    simp [hA, hE, hU, hS, hL] at herr <;>
    exact herr.symm

theorem renderLines_append_eq_error (uefiModule : Bool)
    (props append : List (String × String)) (st : RenderState) (lines : List String)
    (l : String) (hl : l ∈ lines)
    (ha : strStartsWith (strTrimLeft (substLine props l)) "append=" = true)
    (hm : uefiModule = false) :
    renderLines uefiModule props append st lines = .error uefiLicenseMsg := by
  subst hm
  induction lines generalizing st with
  | nil => cases hl
  | cons hd tl ih =>
      rcases List.mem_cons.mp hl with rfl | hl'
      · have hcls : strStartsWith (strTrimLeft (substLine props l)) "append" = true :=
          strStartsWith_append_eq _ ha
        have hstep : processLine false props append st l = .error uefiLicenseMsg := by
          unfold processLine
          simp only [hcls, ha, if_true, Bool.false_and, Bool.not_false, Bool.true_and,
            Bool.false_eq_true, if_false]
        unfold renderLines
        rw [hstep]
      · unfold renderLines
        rcases hstep : processLine false props append st hd with e | st'
        · rw [processLine_error_msg false props append st hd e hstep]
        · exact ih st' hl'

/-- C7 (amended) — UEFI license gate for `append=` lines: whenever the
template contains a line whose right-trimmed, property-substituted form
starts (after left-stripping) with `append=` and the uefi module is not
licensed, `PXEConfigWriter` construction fails with the missing-licence
error and the disk is left untouched (no boot file is created), so the
update is aborted.  (A `linux` line does *not* enforce the gate on its
own: the renderer checks `self.uefi` *before* setting it, so the check
only fires when an earlier `append=`/`linux` line has already set the
flag — see the counterexample.) -/
theorem uefi_license_gate_append
    (fs : String → Option (List String)) (disk : List String)
    (templatefile hostId : String) (pocs : List ProductOnClient)
    (append props : List (String × String)) (pxefile : String)
    (secureBootModule : Bool) (lines : List String) (l : String)
    (hfs : fs templatefile = some lines) (hl : l ∈ lines)
    (ha : strStartsWith (strTrimLeft (substLine props l)) "append=" = true) :
    writerInit fs disk templatefile hostId pocs append props pxefile false secureBootModule
      = (disk, .error uefiLicenseMsg) := by
  simp only [writerInit, hfs,
    renderLines_append_eq_error false props append initRenderState lines l hl ha rfl]


/-- C7 witness — a concrete template with an `append="…"` line and no
uefi licence: construction fails with the licence error, disk unchanged. -/
theorem uefi_license_gate_append_witness :
    writerInit fsC2Elilo ["/somewhere/else"] "install-elilo" "pc01.lab.example" [] [] []
        "/tftpboot/linux/pxelinux.cfg/01-aa-bb-cc-dd-ee-ff" false true
      = (["/somewhere/else"], .error uefiLicenseMsg) :=
  uefi_license_gate_append fsC2Elilo ["/somewhere/else"] "install-elilo" "pc01.lab.example"
    [] [] [] "/tftpboot/linux/pxelinux.cfg/01-aa-bb-cc-dd-ee-ff" true
    ["append=\"initrd=y\""] "append=\"initrd=y\"" (by decide) (by decide) (by decide)

/-- C7 counterexample — the claim also covers `linux` lines, but a
template whose only UEFI-style directive is a single `linux` line
constructs *successfully* with the uefi module unlicensed: the rendered
content is emitted and the fifo is created. -/
theorem uefi_license_gate_linux_counterexample :
    ((writerInit (fun t => if t == "grubtmpl" then some ["linux install"] else none)
        [] "grubtmpl" "pc01.lab.example" [] [] [] "/tftpboot/linux/pxelinux.cfg/f" false
        false).2.map Writer.content) = .ok "linux install\n"
    ∧ (writerInit (fun t => if t == "grubtmpl" then some ["linux install"] else none)
        [] "grubtmpl" "pc01.lab.example" [] [] [] "/tftpboot/linux/pxelinux.cfg/f" false
        false).1 = ["/tftpboot/linux/pxelinux.cfg/f"] := by
  constructor
  · rfl
  · rfl

theorem getPxeConfigTemplate_single (b : Backend) (cfg : Config) (h : String)
    (poc : ProductOnClient) (prod : Product)
    (hprod : b.product_getObjects poc.productId poc.productVersion poc.packageVersion
      = some prod) :
    ∃ tmpl, getPxeConfigTemplate b cfg h [poc] = .ok (tmpl, some prod) := by
  unfold getPxeConfigTemplate
  simp only [pxeTemplateLoop, hprod]
  exact ⟨_, rfl⟩

theorem updateBootConfiguration_res (b : Backend) (s : DaemonState) (h : String)
    (hv : isValidHostId h = true) :
    updateBootConfiguration b s h =
      ({ s with
          pxeConfigWriters := s.pxeConfigWriters.filter (fun w => !(w.hostId == h))
            ++ (match (updateCore b s.config
                  (s.pxeConfigWriters.filter (fun w => !(w.hostId == h))) s.disk h).2.1 with
                | some w => [w] | none => []),
          disk := (updateCore b s.config
                  (s.pxeConfigWriters.filter (fun w => !(w.hostId == h))) s.disk h).2.2.2 },
       ([Action.lockAcquire, Action.removeFromRegistry h, Action.lockRelease]
          ++ (s.pxeConfigWriters.filter (fun w => w.hostId == h)).flatMap
               (fun w => [Action.writerStop w.hostId, Action.writerJoin w.hostId]))
          ++ (updateCore b s.config
                (s.pxeConfigWriters.filter (fun w => !(w.hostId == h))) s.disk h).2.2.1,
       (updateCore b s.config
          (s.pxeConfigWriters.filter (fun w => !(w.hostId == h))) s.disk h).1) := by
  unfold updateBootConfiguration
  rw [forceHostId_valid h hv]
  unfold removeCurrentConfigWriters
  rcases hcore : updateCore b s.config
      (s.pxeConfigWriters.filter (fun w => !(w.hostId == h))) s.disk h with
    ⟨res, newW, tr2, disk'⟩
  simp only [hcore]

theorem updateCore_name_error (b : Backend) (cfg : Config) (registry : List Writer)
    (disk : List String) (h : String) (host : Host) (poc : ProductOnClient)
    (pod : ProductOnDepot) (prod : Product) (e : String)
    (hpocs : b.productOnClient_getObjects h = [poc])
    (hhost : b.host_getObjects h = some host)
    (hpod : b.productOnDepot_getObjects poc.productId cfg.depotId = some pod)
    (hprod : b.product_getObjects poc.productId (some pod.productVersion)
      (some pod.packageVersion) = some prod)
    (hname : getNameForPXEConfigFile host = .error e) :
    updateCore b cfg registry disk h = (.error e, none, [], disk) := by
  obtain ⟨tmpl, htmpl⟩ := getPxeConfigTemplate_single b cfg h
    { poc with productVersion := some pod.productVersion,
               packageVersion := some pod.packageVersion } prod hprod
  unfold updateCore
  simp only [hpocs, hhost, List.filterMap, hpod, List.isEmpty_cons, htmpl, hname,
    Bool.false_eq_true, if_false]

/-- C6 (amended) — Output file naming: `_getNameForPXEConfigFile`
computes exactly one boot-file name deterministically from the host:
`01-` plus the MAC with `:` replaced by `-` when the hardware address is
non-empty; otherwise the concatenated `%02X` renderings of the ip
address's dot-separated components when the ip address is non-empty;
otherwise it raises, which aborts the update with that fatal error.
`system_uuid` is never consulted. -/
theorem pxe_file_naming (host : Host) :
    (pyTruthy host.hardwareAddress = true →
      getNameForPXEConfigFile host
        = .ok ("01-" ++ strReplace (optStr host.hardwareAddress) ":" "-"))
    ∧ (pyTruthy host.hardwareAddress = false → pyTruthy host.ipAddress = true →
        ∀ parts, (strSplitOn (optStr host.ipAddress) ".").mapM pyInt = some parts →
          parts.length = 4 →
          getNameForPXEConfigFile host = .ok (strConcat (parts.map hexByte)))
    ∧ (pyTruthy host.hardwareAddress = false → pyTruthy host.ipAddress = false →
        getNameForPXEConfigFile host
          = .error ("Neither hardware address nor ip address known for host '"
              ++ host.id ++ "'"))
    ∧ (∀ u, getNameForPXEConfigFile { host with systemUUID := u }
        = getNameForPXEConfigFile host)
    ∧ (∀ (b : Backend) (s : DaemonState) (poc : ProductOnClient) (pod : ProductOnDepot)
        (prod : Product),
        isValidHostId host.id = true →
        b.productOnClient_getObjects host.id = [poc] →
        b.host_getObjects host.id = some host →
        b.productOnDepot_getObjects poc.productId s.config.depotId = some pod →
        b.product_getObjects poc.productId (some pod.productVersion)
          (some pod.packageVersion) = some prod →
        pyTruthy host.hardwareAddress = false → pyTruthy host.ipAddress = false →
        (updateBootConfiguration b s host.id).2.2
          = .error ("Neither hardware address nor ip address known for host '"
              ++ host.id ++ "'")) := by
  have hname3 : pyTruthy host.hardwareAddress = false → pyTruthy host.ipAddress = false →
      getNameForPXEConfigFile host
        = .error ("Neither hardware address nor ip address known for host '"
            ++ host.id ++ "'") := by
    intro hm hi
    unfold getNameForPXEConfigFile
    rw [hm, hi]
    rfl
  refine ⟨?_, ?_, hname3, ?_, ?_⟩
  · intro hm
    unfold getNameForPXEConfigFile
    rw [hm]
    rfl
  · intro hm hi parts hparts hlen
    unfold getNameForPXEConfigFile
    rw [hm, hi]
    simp only [Bool.false_eq_true, if_false, if_true, hparts]
    have : (parts.length == 4) = true := by rw [hlen]; rfl
    rw [this]
    rfl
  · intro u
    rfl
  · intro b s poc pod prod hv hpocs hhost hpod hprod hm hi
    rw [updateBootConfiguration_res b s host.id hv]
    simp only
    rw [updateCore_name_error b s.config
      (s.pxeConfigWriters.filter (fun w => !(w.hostId == host.id))) s.disk host.id host poc
      pod prod _ hpocs hhost hpod hprod (hname3 hm hi)]

/-- C6 counterexample — the claim says a host with `system_uuid` set
gets the uuid included as one of its file names (and that only a host with
neither `system_uuid` nor `hardware_address` fails).  This host has a
`system_uuid` and no hardware address: the code raises the fatal
neither-address error instead of producing the uuid name — the code never
reads `system_uuid` and falls back to the ip address, not the uuid. -/
theorem pxe_file_naming_counterexample :
    getNameForPXEConfigFile
        { id := "pc01.lab.example", hardwareAddress := none, ipAddress := none,
          systemUUID := some "11112222-3333-4444-5555-666677778888",
          opsiHostKey := some "k" }
      = .error "Neither hardware address nor ip address known for host 'pc01.lab.example'" :=
  rfl

/-- C6 witness — the MAC branch at a concrete host. -/
theorem pxe_file_naming_witness :
    getNameForPXEConfigFile
        { id := "pc01.lab.example", hardwareAddress := some "aa:bb:cc:dd:ee:ff",
          ipAddress := none, systemUUID := none, opsiHostKey := some "k" }
      = .ok ("01-" ++ strReplace "aa:bb:cc:dd:ee:ff" ":" "-") :=
  (pxe_file_naming
    { id := "pc01.lab.example", hardwareAddress := some "aa:bb:cc:dd:ee:ff",
      ipAddress := none, systemUUID := none, opsiHostKey := some "k" }).1 (by decide)



theorem get_append_length {α : Type} (a : List α) (b : α) (c : List α)
    (h : a.length < (a ++ b :: c).length) : (a ++ b :: c).get ⟨a.length, h⟩ = b := by
  rw [List.get_eq_getElem, List.getElem_append_right (Nat.le_refl a.length)]
  simp

theorem set_append_length {α : Type} (a : List α) (b x : α) (c : List α) :
    (a ++ b :: c).set a.length x = a ++ x :: c := by
  rw [List.set_append]
  simp

theorem callbackLoop_refetchAll (refetch : String → String → List ProductOnClient)
    (nd : Bool) (todo : List ProductOnClient) :
    ∀ (rtodo done : List ProductOnClient) (ga : Bool) (fuel : Nat),
    refetchAll refetch todo = some rtodo →
    todo.length + 1 ≤ fuel →
    callbackLoop refetch nd fuel done.length (done ++ todo) ga =
      .ok (done ++ callbackClearSpec nd ga rtodo,
           ga || rtodo.any (fun p => p.actionRequest == "always")) := by
  induction todo with
  | nil =>
      intro rtodo done ga fuel hre hfuel
      cases rtodo with
      | cons _ _ => simp [refetchAll] at hre
      | nil =>
          obtain ⟨f, rfl⟩ : ∃ f, fuel = f + 1 := ⟨fuel - 1, by omega⟩
          simp [callbackLoop, callbackClearSpec]
  | cons p rest ih =>
      intro rtodo done ga fuel hre hfuel
      unfold refetchAll at hre
      rcases hq : refetch p.clientId p.productId with _ | ⟨q, qs'⟩
      · rw [hq] at hre; cases hre
      · rw [hq] at hre
        rcases hrs : refetchAll refetch rest with _ | rs
        · rw [hrs] at hre; cases hre
        · rw [hrs] at hre
          have hrtodo : rtodo = q :: rs := by
            rw [← Option.some.injEq]; exact hre.symm
          subst hrtodo
          obtain ⟨f, rfl⟩ : ∃ f, fuel = f + 1 := ⟨fuel - 1, by omega⟩
          have hlt : done.length < (done ++ p :: rest).length := by
            simp
          have key : ∀ (c2 : ProductOnClient) (g : Bool),
              callbackLoop refetch nd f (done.length + 1) (done ++ c2 :: rest) g =
                .ok (done ++ c2 :: callbackClearSpec nd g rs,
                     g || rs.any (fun x => x.actionRequest == "always")) := by
            intro c2 g
            have hf : rest.length + 1 ≤ f := by simp at hfuel; omega
            have hih := ih rs (done ++ [c2]) g f hrs hf
            simpa using hih
          unfold callbackLoop
          rw [dif_pos hlt, get_append_length done p rest hlt]
          simp only [hq, set_append_length]
          rw [key]
          simp only [callbackClearSpec, Except.ok.injEq, Prod.mk.injEq, List.any_cons,
            Bool.or_assoc]

theorem callbackClearSpec_length (nd s0 : Bool) (l : List ProductOnClient) :
    (callbackClearSpec nd s0 l).length = l.length := by
  induction l generalizing s0 with
  | nil => rfl
  | cons p rest ih => simp [callbackClearSpec, ih]

theorem callbackClearSpec_progress (nd s0 : Bool) (l : List ProductOnClient) :
    ∀ p ∈ callbackClearSpec nd s0 l, p.actionProgress = callbackProgressMsg := by
  induction l generalizing s0 with
  | nil => intro p hp; cases hp
  | cons q rest ih =>
      intro p hp
      rcases List.mem_cons.mp hp with rfl | hp'
      · split <;> rfl
      · exact ih _ p hp'

theorem callbackClearSpec_always (nd s0 : Bool) (l : List ProductOnClient) :
    ∀ (j : Nat) (hj : j < l.length) (hj2 : j < (callbackClearSpec nd s0 l).length),
      (l.get ⟨j, hj⟩).actionRequest = "always" →
      ((callbackClearSpec nd s0 l).get ⟨j, hj2⟩).actionRequest = "always" := by
  induction l generalizing s0 with
  | nil => intro j hj; cases hj
  | cons q rest ih =>
      intro j hj hj2 halw
      cases j with
      | zero =>
          simp at halw
          simp [callbackClearSpec, halw]
      | succ j' =>
          have hb1 : j' < rest.length := by simpa using hj
          have hb2 : j' < (callbackClearSpec nd (s0 || (q.actionRequest == "always"))
              rest).length := by
            rw [callbackClearSpec_length]; exact hb1
          simp at halw
          have hexp : (callbackClearSpec nd s0 (q :: rest)).get ⟨j'+1, hj2⟩
              = (callbackClearSpec nd (s0 || (q.actionRequest == "always")) rest).get
                  ⟨j', hb2⟩ := by
            simp [callbackClearSpec]
          rw [hexp]
          exact ih _ j' hb1 hb2 halw

theorem callbackClearSpec_default_request (s0 : Bool) (l : List ProductOnClient) :
    ∀ (j : Nat) (hj : j < l.length) (hj2 : j < (callbackClearSpec false s0 l).length),
      ((callbackClearSpec false s0 l).get ⟨j, hj2⟩).actionRequest
        = (l.get ⟨j, hj⟩).actionRequest := by
  induction l generalizing s0 with
  | nil => intro j hj; cases hj
  | cons q rest ih =>
      intro j hj hj2
      cases j with
      | zero =>
          simp [callbackClearSpec]
      | succ j' =>
          have hb1 : j' < rest.length := by simpa using hj
          have hb2 : j' < (callbackClearSpec false (s0 || (q.actionRequest == "always"))
              rest).length := by
            rw [callbackClearSpec_length]; exact hb1
          have hexp : (callbackClearSpec false s0 (q :: rest)).get ⟨j'+1, hj2⟩
              = (callbackClearSpec false (s0 || (q.actionRequest == "always")) rest).get
                  ⟨j', hb2⟩ := by
            simp [callbackClearSpec]
          rw [hexp, List.get_cons_succ]
          exact ih _ j' hb1 hb2

theorem pxeConfigWriterCallback_loop_eq (b : Backend) (defaultTemplate : String)
    (pcw : Writer) (rlist : List ProductOnClient)
    (hre : refetchAll b.productOnClient_refetch pcw.productOnClients = some rlist) :
    callbackLoop b.productOnClient_refetch (!(pcw.templatefile == defaultTemplate))
        (pcw.productOnClients.length + 1) 0 pcw.productOnClients false =
      .ok (callbackClearSpec (!(pcw.templatefile == defaultTemplate)) false rlist,
           rlist.any (fun p => p.actionRequest == "always")) := by
  have h := callbackLoop_refetchAll b.productOnClient_refetch
    (!(pcw.templatefile == defaultTemplate)) pcw.productOnClients rlist [] false
    (pcw.productOnClients.length + 1) hre (by omega)
  simpa using h

/-- C4 (amended) — Completion-callback state update: when every
re-fetch returns an object, the callback loop succeeds; every surviving
`ProductOnClient` gets `action_progress = "pxe boot configuration read"`
and is published; but the action request is cleared to `"none"` only when
the writer's template file *differs* from the configured default template
and no `"always"` request has been seen up to and including the object
(`callbackClearSpec`); in particular, with the default template no action
request is cleared at all — the published requests equal the re-fetched
ones. -/
theorem callback_progress_and_clear (b : Backend) (defaultTemplate : String)
    (registry : List Writer) (pcw : Writer) (rlist : List ProductOnClient)
    (hre : refetchAll b.productOnClient_refetch pcw.productOnClients = some rlist) :
    (pxeConfigWriterCallback b defaultTemplate registry pcw).error = none
    ∧ (pxeConfigWriterCallback b defaultTemplate registry pcw).pocs
        = callbackClearSpec (!(pcw.templatefile == defaultTemplate)) false rlist
    ∧ (pxeConfigWriterCallback b defaultTemplate registry pcw).published
        = (if rlist.isEmpty then []
           else callbackClearSpec (!(pcw.templatefile == defaultTemplate)) false rlist)
    ∧ (pxeConfigWriterCallback b defaultTemplate registry pcw).updateCalled
        = rlist.any (fun p => p.actionRequest == "always")
    ∧ (∀ p ∈ (pxeConfigWriterCallback b defaultTemplate registry pcw).pocs,
        p.actionProgress = callbackProgressMsg)
    ∧ (pcw.templatefile = defaultTemplate →
        ∀ (j : Nat) (hj : j < rlist.length)
          (hj2 : j < (pxeConfigWriterCallback b defaultTemplate registry pcw).pocs.length),
          ((pxeConfigWriterCallback b defaultTemplate registry pcw).pocs.get
              ⟨j, hj2⟩).actionRequest
            = (rlist.get ⟨j, hj⟩).actionRequest) := by
  have hloop := pxeConfigWriterCallback_loop_eq b defaultTemplate pcw rlist hre
  have hres : pxeConfigWriterCallback b defaultTemplate registry pcw =
      { registry := listRemoveFirst registry pcw,
        pocs := callbackClearSpec (!(pcw.templatefile == defaultTemplate)) false rlist,
        published :=
          if (callbackClearSpec (!(pcw.templatefile == defaultTemplate)) false rlist).isEmpty
          then [] else callbackClearSpec (!(pcw.templatefile == defaultTemplate)) false rlist,
        updateCalled := rlist.any (fun p => p.actionRequest == "always"),
        error := none,
        trace :=
          (if (callbackClearSpec (!(pcw.templatefile == defaultTemplate)) false
              rlist).isEmpty then [] else [Action.publish])
          ++ (if rlist.any (fun p => p.actionRequest == "always")
              then [Action.updateCall pcw.hostId] else []) } := by
    unfold pxeConfigWriterCallback
    rw [hloop]
  have hempty : (callbackClearSpec (!(pcw.templatefile == defaultTemplate))
      false rlist).isEmpty = rlist.isEmpty := by
    cases rlist <;> rfl
  refine ⟨by rw [hres], by rw [hres], ?_, by rw [hres], ?_, ?_⟩
  · rw [hres]
    simp only [hempty]
  · intro p hp
    rw [hres] at hp
    exact callbackClearSpec_progress _ _ _ p hp
  · intro hdef j hj hj2
    have hnd : (!(pcw.templatefile == defaultTemplate)) = false := by
      simp [hdef]
    have hps : (pxeConfigWriterCallback b defaultTemplate registry pcw).pocs
        = callbackClearSpec false false rlist := by
      rw [hres]
      simp only [hnd]
    rw [List.get_of_eq hps]
    exact callbackClearSpec_default_request false rlist j hj _




/-- C4 counterexample — the claim says every published object whose
action request is not `"always"` has its request cleared to `"none"`.
Here the writer used the default template
(`pcwC4.templatefile = "/tftpboot/linux/pxelinux.cfg/install"`, passed as
the configured default): the callback publishes the renewed object with
`action_progress` set but its action request still `"setup"`, not
`"none"`. -/
theorem callback_clear_counterexample :
    ((pxeConfigWriterCallback bC4 "/tftpboot/linux/pxelinux.cfg/install" [pcwC4]
        pcwC4).published.map (fun p => p.actionRequest)) = ["setup"]
    ∧ ((pxeConfigWriterCallback bC4 "/tftpboot/linux/pxelinux.cfg/install" [pcwC4]
        pcwC4).published.map (fun p => p.actionProgress)) = [callbackProgressMsg] := by
  constructor
  · rfl
  · rfl

/-- C4 (amended) witness — the same scenario with a *non-default*
template: the theorem applies with re-fetch list `[pocSetup]`, and the
published request is indeed cleared. -/
theorem callback_progress_and_clear_witness :
    (pxeConfigWriterCallback bC4 "/tftpboot/linux/pxelinux.cfg/install-custom" [pcwC4]
        pcwC4).pocs
      = callbackClearSpec (!(pcwC4.templatefile
          == "/tftpboot/linux/pxelinux.cfg/install-custom")) false [pocSetup] :=
  (callback_progress_and_clear bC4 "/tftpboot/linux/pxelinux.cfg/install-custom" [pcwC4]
    pcwC4 [pocSetup] (by decide)).2.1

theorem writerInitMono_hostId (fs : String → Option (List String)) (disk : List String)
    (templatefile hostId : String) (pocs : List ProductOnClient)
    (append props : List (String × String)) (pxefile : String)
    (uefiModule secureBootModule : Bool) (d' : List String) (w : Writer)
    (hok : writerInitMono fs disk templatefile hostId pocs append props pxefile
        uefiModule secureBootModule = (d', .ok w)) : w.hostId = hostId := by
  unfold writerInitMono at hok
  split at hok
  · exact absurd (congrArg Prod.snd hok) (by simp)
  · split at hok
    · exact absurd (congrArg Prod.snd hok) (by simp)
    · have hsnd := congrArg Prod.snd hok
      simp only at hsnd
      have hw := (Except.ok.injEq _ _).mp hsnd.symm
      rw [hw]

theorem updateCore_shape (b : Backend) (cfg : Config) (registry : List Writer)
    (disk : List String) (h : String) (res : Except String (Option String))
    (w? : Option Writer) (tr : List Action) (d : List String)
    (he : updateCore b cfg registry disk h = (res, w?, tr, d)) :
    (w? = none ∧ tr = [])
    ∨ (∃ w, w? = some w ∧ w.hostId = h ∧ tr = [Action.writerInsert h]) := by
  unfold updateCore at he
  repeat' first
    | split at he
    | (dsimp only at he)
  all_goals (
    injection he with e1 hrest
    injection hrest with e2 hrest2
    injection hrest2 with e3 e4)
  all_goals try exact Or.inl ⟨e2.symm, e3.symm⟩
  rename_i disk2 w2 heq
  exact Or.inr ⟨w2, e2.symm,
    writerInitMono_hostId _ _ _ _ _ _ _ _ _ _ _ _ heq, e3.symm⟩

/-- C10 counterexample — the claim concludes that after an `"always"`
request is observed "a fresh writer is immediately created for that
host"; that conclusion is not unconditional in the code.  At `bC10` the
per-product re-fetch still reports an `"always"` request, so the callback
re-invokes `updateBootConfiguration` — but the re-invoked update's own
backend query (`productOnClient_getObjects`, line 313) returns no netboot
product, so the update returns early without constructing any writer: the
final registry is empty. -/
theorem callback_always_retrigger_counterexample :
    (pxeConfigWriterCallbackRun bC10 sC10 pcwC10).2.1.updateCalled = true
    ∧ (pxeConfigWriterCallbackRun bC10 sC10 pcwC10).1.pxeConfigWriters = [] := by
  exact ⟨by decide, by decide⟩

/-- C10 (amended) — Automatic re-trigger on `"always"`: when some renewed
`ProductOnClient` has action request `"always"`, the callback re-invokes
`updateBootConfiguration` for the writer's host (`updateCalled`, recorded
as `Action.updateCall pcw.hostId` *after* `Action.publish`), every
renewed object whose request is `"always"` keeps that request — it is
never cleared to `"none"` — and the executed re-invocation leaves the
registry holding exactly the de-registered writer's surviving competitors
plus the zero-or-one fresh writers the update pipeline constructs; any
such fresh writer is for the writer's own host.  (A fresh writer thus
appears precisely when the backend still yields the product chain — not
unconditionally, see the counterexample.) -/
theorem callback_always_retrigger (b : Backend) (s : DaemonState) (pcw : Writer)
    (rlist : List ProductOnClient)
    (hre : refetchAll b.productOnClient_refetch pcw.productOnClients = some rlist)
    (halways : rlist.any (fun p => p.actionRequest == "always") = true)
    (hv : isValidHostId pcw.hostId = true) :
    (pxeConfigWriterCallbackRun b s pcw).2.1.updateCalled = true
    ∧ (pxeConfigWriterCallbackRun b s pcw).2.1.trace
        = [Action.publish, Action.updateCall pcw.hostId]
    ∧ (∀ (j : Nat) (hj : j < rlist.length)
        (hj2 : j < (pxeConfigWriterCallbackRun b s pcw).2.1.pocs.length),
        (rlist.get ⟨j, hj⟩).actionRequest = "always" →
        ((pxeConfigWriterCallbackRun b s pcw).2.1.pocs.get ⟨j, hj2⟩).actionRequest
          = "always")
    ∧ (pxeConfigWriterCallbackRun b s pcw).1.pxeConfigWriters
        = (listRemoveFirst s.pxeConfigWriters pcw).filter
            (fun w => !(w.hostId == pcw.hostId))
          ++ optToList (updateCore b s.config
              ((listRemoveFirst s.pxeConfigWriters pcw).filter
                (fun w => !(w.hostId == pcw.hostId))) s.disk pcw.hostId).2.1
    ∧ (∀ w ∈ optToList (updateCore b s.config
              ((listRemoveFirst s.pxeConfigWriters pcw).filter
                (fun w => !(w.hostId == pcw.hostId))) s.disk pcw.hostId).2.1,
        w.hostId = pcw.hostId) := by
  have hloop := pxeConfigWriterCallback_loop_eq b s.config.pxeConfTemplate pcw rlist hre
  have hres : pxeConfigWriterCallback b s.config.pxeConfTemplate s.pxeConfigWriters pcw =
      { registry := listRemoveFirst s.pxeConfigWriters pcw,
        pocs := callbackClearSpec (!(pcw.templatefile == s.config.pxeConfTemplate))
          false rlist,
        published :=
          if (callbackClearSpec (!(pcw.templatefile == s.config.pxeConfTemplate))
              false rlist).isEmpty
          then []
          else callbackClearSpec (!(pcw.templatefile == s.config.pxeConfTemplate))
            false rlist,
        updateCalled := rlist.any (fun p => p.actionRequest == "always"),
        error := none,
        trace :=
          (if (callbackClearSpec (!(pcw.templatefile == s.config.pxeConfTemplate)) false
              rlist).isEmpty then [] else [Action.publish])
          ++ (if rlist.any (fun p => p.actionRequest == "always")
              then [Action.updateCall pcw.hostId] else []) } := by
    unfold pxeConfigWriterCallback
    rw [hloop]
  have hcalled : (pxeConfigWriterCallback b s.config.pxeConfTemplate s.pxeConfigWriters
      pcw).updateCalled = true := by
    rw [hres]; exact halways
  have hrun : pxeConfigWriterCallbackRun b s pcw =
      ((updateBootConfiguration b
          { s with pxeConfigWriters := listRemoveFirst s.pxeConfigWriters pcw }
          pcw.hostId).1,
       pxeConfigWriterCallback b s.config.pxeConfTemplate s.pxeConfigWriters pcw,
       (pxeConfigWriterCallback b s.config.pxeConfTemplate s.pxeConfigWriters pcw).trace
         ++ (updateBootConfiguration b
          { s with pxeConfigWriters := listRemoveFirst s.pxeConfigWriters pcw }
          pcw.hostId).2.1) := by
    unfold pxeConfigWriterCallbackRun
    rw [if_pos hcalled, hres]
  refine ⟨?_, ?_, ?_, ?_, ?_⟩
  · rw [hrun]
    exact hcalled
  · rw [hrun]
    show (pxeConfigWriterCallback b s.config.pxeConfTemplate s.pxeConfigWriters pcw).trace
        = [Action.publish, Action.updateCall pcw.hostId]
    have hne : rlist ≠ [] := by
      intro hnil
      rw [hnil] at halways
      cases halways
    have hempty : (callbackClearSpec (!(pcw.templatefile == s.config.pxeConfTemplate))
        false rlist).isEmpty = false := by
      cases rlist with
      | nil => exact absurd rfl hne
      | cons q rest => rfl
    rw [hres]
    simp only [hempty, halways]
    rfl
  · intro j hj hj2 halw
    have hps : (pxeConfigWriterCallbackRun b s pcw).2.1.pocs
        = callbackClearSpec (!(pcw.templatefile == s.config.pxeConfTemplate)) false rlist := by
      rw [hrun, hres]
    rw [List.get_of_eq hps]
    exact callbackClearSpec_always _ false rlist j hj _ halw
  · rw [hrun, updateBootConfiguration_res b
        { s with pxeConfigWriters := listRemoveFirst s.pxeConfigWriters pcw } pcw.hostId hv]
    dsimp only
    cases (updateCore b s.config
        ((listRemoveFirst s.pxeConfigWriters pcw).filter
          (fun w => !(w.hostId == pcw.hostId))) s.disk pcw.hostId).2.1 with
    | none => rfl
    | some w => rfl
  · intro w hwmem
    rcases hc : updateCore b s.config
        ((listRemoveFirst s.pxeConfigWriters pcw).filter
          (fun x => !(x.hostId == pcw.hostId))) s.disk pcw.hostId with ⟨res, wopt, tr, d⟩
    rw [hc] at hwmem
    dsimp only at hwmem
    rcases updateCore_shape b s.config
        ((listRemoveFirst s.pxeConfigWriters pcw).filter
          (fun x => !(x.hostId == pcw.hostId))) s.disk pcw.hostId res wopt tr d hc with
      ⟨hnone, hemptr⟩ | ⟨w2, hsome, hhid, htr⟩
    · rw [hnone] at hwmem
      simp [optToList] at hwmem
    · rw [hsome] at hwmem
      simp only [optToList, List.mem_singleton] at hwmem
      rw [hwmem]
      exact hhid

/-- C10 witness — the concrete `"always"` scenario re-triggers the
update after publishing. -/
theorem callback_always_retrigger_witness :
    (pxeConfigWriterCallbackRun bC10 sC10 pcwC10).2.1.updateCalled = true
    ∧ (pxeConfigWriterCallbackRun bC10 sC10 pcwC10).2.1.trace
        = [Action.publish, Action.updateCall pcwC10.hostId] :=
  ⟨(callback_always_retrigger bC10 sC10 pcwC10 [pocAlways]
      (by decide) (by decide) (by decide)).1,
   (callback_always_retrigger bC10 sC10 pcwC10 [pocAlways]
      (by decide) (by decide) (by decide)).2.1⟩





/-- C8 — evaluation of `Opsipxeconfd.stop` at the failing input: with
one live writer registered, `stop` stops and joins only the startup task
and closes the socket; its action trace contains no writer stop or join,
the registry is untouched and the writer is still running.  (The claim —
the spec's §4.9 step 2 — says `stop` snapshots the registry and stops and
joins every writer with a five-second bound; the method's body,
`opsipxeconfd.py` lines 100–118, never touches `_pxeConfigWriters`.) -/
theorem stop_does_not_drain_writers :
    (stopDaemon sC8).1.pxeConfigWriters = [wC8]
    ∧ wC8.running = true
    ∧ (stopDaemon sC8).2 = [Action.startupStop, Action.startupJoin, Action.socketClose]
    ∧ (stopDaemon sC8).2.all (fun a => !isWriterAction a) = true
    ∧ (stopDaemon sC8).1.running = false :=
  ⟨rfl, rfl, rfl, rfl, rfl⟩

/-- C9 — Remove command (spec-modelled: `removeBootConfiguration` is
absent from the `src/` snapshot; it is modelled from §4.4/§4.7 of the
spec): for a valid host id, `remove <host_id>` replies
`"Boot configuration removed"`, drops every writer of that host from the
registry — stopping and joining each under the replacement protocol — and
on a host with no registered writer it leaves the registry unchanged while
still returning the success text. -/
theorem remove_command_behavior (b : Backend) (s : DaemonState) (cmd h : String)
    (hsplit : splitWs cmd = ["remove", h]) (hv : isValidHostId h = true) :
    (processCommand b s cmd).2.2 = some "Boot configuration removed"
    ∧ (processCommand b s cmd).1.pxeConfigWriters
        = s.pxeConfigWriters.filter (fun w => !(w.hostId == h))
    ∧ (s.pxeConfigWriters.filter (fun w => w.hostId == h) = [] →
        (processCommand b s cmd).1.pxeConfigWriters = s.pxeConfigWriters)
    ∧ (processCommand b s cmd).2.1
        = [Action.lockAcquire, Action.removeFromRegistry h, Action.lockRelease]
          ++ (s.pxeConfigWriters.filter (fun w => w.hostId == h)).flatMap
               (fun w => [Action.writerStop w.hostId, Action.writerJoin w.hostId]) := by
  have hpc : processCommand b s cmd =
      ({ s with pxeConfigWriters := s.pxeConfigWriters.filter (fun w => !(w.hostId == h)) },
       [Action.lockAcquire, Action.removeFromRegistry h, Action.lockRelease]
         ++ (s.pxeConfigWriters.filter (fun w => w.hostId == h)).flatMap
              (fun w => [Action.writerStop w.hostId, Action.writerJoin w.hostId]),
       some "Boot configuration removed") := by
    unfold processCommand
    rw [hsplit]
    simp only [forceHostId_valid h hv]
    rfl
  refine ⟨by rw [hpc], by rw [hpc], ?_, by rw [hpc]⟩
  intro hnone
  rw [hpc]
  simp only
  have : ∀ w ∈ s.pxeConfigWriters, ¬(w.hostId == h) = true := by
    rw [← List.filter_eq_nil_iff]
    exact hnone
  rw [List.filter_eq_self.mpr]
  intro w hw
  simp [this w hw]



/-- C9 witness — `remove pc01.lab.example` on a state whose only
writer belongs to `pc02.lab.example`: success text and untouched
registry. -/
theorem remove_command_behavior_witness :
    (processCommand bC4 sC3 "remove pc01.lab.example").2.2
      = some "Boot configuration removed"
    ∧ (processCommand bC4 sC3 "remove pc01.lab.example").1.pxeConfigWriters
      = sC3.pxeConfigWriters :=
  ⟨(remove_command_behavior bC4 sC3 "remove pc01.lab.example" "pc01.lab.example"
      (by decide) (by decide)).1,
   (remove_command_behavior bC4 sC3 "remove pc01.lab.example" "pc01.lab.example"
      (by decide) (by decide)).2.2.1 (by decide)⟩

theorem scanWriters_collision (pxefile hid : String) (l : List Writer) (w : Writer)
    (hw : w ∈ l) (hall : ∀ v ∈ l, v.hostId ≠ hid) (hpx : w.pxefile = pxefile) :
    ∃ e, scanWriters pxefile hid l = .error e := by
  induction l with
  | nil => cases hw
  | cons v vs ih =>
      by_cases h1 : (v.uefi && !v.uefiModule) = true
      · exact ⟨"Should use uefi netboot, but uefi module is not licensed.",
          by simp [scanWriters, h1]⟩
      · have h1' : (v.uefi && !v.uefiModule) = false := by simpa using h1
        have hvh : (hid == v.hostId) = false := by
          have hne := hall v (List.mem_cons_self _ _)
          simp only [beq_eq_false_iff_ne, ne_eq]
          intro hh
          exact hne hh.symm
        rcases List.mem_cons.mp hw with rfl | hw'
        · have hpxb : (w.pxefile == pxefile) = true := by simp [hpx]
          exact ⟨"PXE boot configuration '" ++ pxefile ++ "' already exists. Clients '"
              ++ hid ++ "' and '" ++ w.hostId ++ "' using same address?",
            by simp [scanWriters, h1', hpxb, hvh]⟩
        · by_cases h2 : (v.pxefile == pxefile) = true
          · exact ⟨"PXE boot configuration '" ++ pxefile ++ "' already exists. Clients '"
                ++ hid ++ "' and '" ++ v.hostId ++ "' using same address?",
              by simp [scanWriters, h1', h2, hvh]⟩
          · have h2' : (v.pxefile == pxefile) = false := by simpa using h2
            obtain ⟨e, he⟩ := ih hw' (fun u hu => hall u (List.mem_cons_of_mem _ hu))
            exact ⟨e, by simp [scanWriters, h1', h2', he]⟩

theorem updateCore_collision (b : Backend) (cfg : Config) (registry : List Writer)
    (disk : List String) (h : String) (host : Host) (poc : ProductOnClient)
    (pod : ProductOnDepot) (prod : Product) (name : String) (w : Writer)
    (hpocs : b.productOnClient_getObjects h = [poc])
    (hhost : b.host_getObjects h = some host)
    (hid : host.id = h)
    (hpod : b.productOnDepot_getObjects poc.productId cfg.depotId = some pod)
    (hprod : b.product_getObjects poc.productId (some pod.productVersion)
      (some pod.packageVersion) = some prod)
    (hname : getNameForPXEConfigFile host = .ok name)
    (hw : w ∈ registry)
    (hall : ∀ v ∈ registry, v.hostId ≠ h)
    (hfile : osPathJoin cfg.pxeDir name = w.pxefile)
    (hdisk : w.pxefile ∈ disk) :
    ∃ e, updateCore b cfg registry disk h = (.error e, none, [], disk) := by
  obtain ⟨tmpl, htmpl⟩ := getPxeConfigTemplate_single b cfg h
    { poc with productVersion := some pod.productVersion,
               packageVersion := some pod.packageVersion } prod hprod
  obtain ⟨e, hscan⟩ := scanWriters_collision (osPathJoin cfg.pxeDir name) host.id registry w
    hw (by rw [hid]; exact hall) (by rw [hfile])
  refine ⟨e, ?_⟩
  unfold updateCore
  simp only [hpocs, hhost, List.filterMap, hpod, List.isEmpty_cons, htmpl, hname,
    Bool.false_eq_true, if_false]
  rw [if_pos (by rw [hfile]; exact hdisk), hscan]

/-- Helper lemma: `errReply` always begins with the `(ERROR)` marker. -/
theorem strStartsWith_errReply (e : String) :
    strStartsWith (errReply e) ERROR_MARKER = true := by
  unfold errReply strStartsWith
  rw [String.data_append, String.data_append, List.append_assoc]
  exact listStartsWith_append_self _ _

/-- C3 — Cross-host collision is fatal: when the `update <host_id>`
command computes a pxe file path equal to the pxe file of a registered
writer of a *different* host and that file exists on disk (the state a
registered active writer maintains), the update raises, the control
connection replies with a string beginning with `(ERROR)`, and no new
writer is inserted — the registry afterwards is exactly the original
minus the updated host's own writers. -/
theorem update_cross_host_collision (b : Backend) (s : DaemonState) (cmd h : String)
    (host : Host) (poc : ProductOnClient) (pod : ProductOnDepot) (prod : Product)
    (name : String) (w : Writer)
    (hsplit : splitWs cmd = ["update", h]) (hv : isValidHostId h = true)
    (hw : w ∈ s.pxeConfigWriters) (hwh : w.hostId ≠ h)
    (hpocs : b.productOnClient_getObjects h = [poc])
    (hhost : b.host_getObjects h = some host)
    (hid : host.id = h)
    (hpod : b.productOnDepot_getObjects poc.productId s.config.depotId = some pod)
    (hprod : b.product_getObjects poc.productId (some pod.productVersion)
      (some pod.packageVersion) = some prod)
    (hname : getNameForPXEConfigFile host = .ok name)
    (hfile : osPathJoin s.config.pxeDir name = w.pxefile)
    (hdisk : w.pxefile ∈ s.disk) :
    (∃ e, (processCommand b s cmd).2.2 = some (errReply e)
      ∧ strStartsWith (errReply e) ERROR_MARKER = true)
    ∧ (processCommand b s cmd).1.pxeConfigWriters
        = s.pxeConfigWriters.filter (fun v => !(v.hostId == h)) := by
  have hwk : w ∈ s.pxeConfigWriters.filter (fun v => !(v.hostId == h)) := by
    rw [List.mem_filter]
    exact ⟨hw, by simp [hwh]⟩
  have hallk : ∀ v ∈ s.pxeConfigWriters.filter (fun v => !(v.hostId == h)),
      v.hostId ≠ h := by
    intro v hv'
    have := (List.mem_filter.mp hv').2
    simpa using this
  obtain ⟨e, hcore⟩ := updateCore_collision b s.config
    (s.pxeConfigWriters.filter (fun v => !(v.hostId == h))) s.disk h host poc pod prod
    name w hpocs hhost hid hpod hprod hname hwk hallk hfile hdisk
  have hupd := updateBootConfiguration_res b s h hv
  have hpc : processCommand b s cmd =
      ((updateBootConfiguration b s h).1, (updateBootConfiguration b s h).2.1,
        match (updateBootConfiguration b s h).2.2 with
        | .error e' => some (errReply e')
        | .ok r? => r?) := by
    unfold processCommand
    rw [hsplit]
    simp only [forceHostId_valid h hv]
    rcases hu : updateBootConfiguration b s h with ⟨s', tr, r⟩
    rcases r with e' | r? <;> rfl
  refine ⟨⟨e, ?_, strStartsWith_errReply e⟩, ?_⟩
  · rw [hpc]
    simp only [hupd, hcore]
  · rw [hpc]
    simp only [hupd, hcore, List.append_nil]





/-- C3 witness — `update pc01.lab.example` while `pc02.lab.example`'s
writer owns the same `01-aa-bb-cc-dd-ee-ff` file: no new writer is
inserted. -/
theorem update_cross_host_collision_witness :
    (processCommand bC3 sC3 "update pc01.lab.example").1.pxeConfigWriters
      = sC3.pxeConfigWriters.filter (fun v => !(v.hostId == "pc01.lab.example")) :=
  (update_cross_host_collision bC3 sC3 "update pc01.lab.example" "pc01.lab.example"
    hostC3 pocSetup podC3 prodC3
    "01-aa-bb-cc-dd-ee-ff" wC3
    (by decide) (by decide) (by decide) (by decide) (by decide) (by decide) (by decide)
    (by decide) (by decide) (by decide) (by decide) (by decide)).2

/-- C1 — Writer exclusivity and replacement: a (valid-host) update
first removes all of the host's writers from the registry under the
registry lock, then — with the lock released — stops and joins each
removed writer, all before any new writer is inserted (the trace begins
with the removal protocol, which contains no insert); afterwards the
registry holds at most one writer for the host, at-most-one-per-host is
preserved for every host, and running `update h` twice in a row leaves
exactly one live writer for `h` whenever the second update inserts one. -/
theorem update_writer_exclusivity (b : Backend) (s : DaemonState) (h : String)
    (hv : isValidHostId h = true) :
    (writersFor (updateBootConfiguration b s h).1.pxeConfigWriters h).length ≤ 1
    ∧ (∀ g, (writersFor s.pxeConfigWriters g).length ≤ 1 →
        (writersFor (updateBootConfiguration b s h).1.pxeConfigWriters g).length ≤ 1)
    ∧ (∃ t, (updateBootConfiguration b s h).2.1
        = ([Action.lockAcquire, Action.removeFromRegistry h, Action.lockRelease]
            ++ (writersFor s.pxeConfigWriters h).flatMap
                 (fun w => [Action.writerStop w.hostId, Action.writerJoin w.hostId])) ++ t)
    ∧ (∀ x, Action.writerInsert x ∉
        ([Action.lockAcquire, Action.removeFromRegistry h, Action.lockRelease]
          ++ (writersFor s.pxeConfigWriters h).flatMap
               (fun w => [Action.writerStop w.hostId, Action.writerJoin w.hostId])))
    ∧ ((Action.writerInsert h ∈
          (updateBootConfiguration b (updateBootConfiguration b s h).1 h).2.1) →
        (writersFor
          (updateBootConfiguration b (updateBootConfiguration b s h).1 h).1.pxeConfigWriters
          h).length = 1) := by
  have hupd := updateBootConfiguration_res b s h hv
  rcases hcore : updateCore b s.config
      (s.pxeConfigWriters.filter (fun w => !(w.hostId == h))) s.disk h with
    ⟨res, w?, tr2, d2⟩
  have hshape := updateCore_shape b s.config
    (s.pxeConfigWriters.filter (fun w => !(w.hostId == h))) s.disk h res w? tr2 d2 hcore
  have hreg : (updateBootConfiguration b s h).1.pxeConfigWriters
      = s.pxeConfigWriters.filter (fun v => !(v.hostId == h)) ++ optToList w? := by
    rcases w? with _ | w <;> (rw [hupd]; simp only [hcore]) <;> rfl
  have htr : (updateBootConfiguration b s h).2.1
      = ([Action.lockAcquire, Action.removeFromRegistry h, Action.lockRelease]
          ++ (s.pxeConfigWriters.filter (fun w => w.hostId == h)).flatMap
               (fun w => [Action.writerStop w.hostId, Action.writerJoin w.hostId])) ++ tr2 := by
    rw [hupd]; simp only [hcore]
  have hA : (writersFor (updateBootConfiguration b s h).1.pxeConfigWriters h).length ≤ 1 := by
    rw [hreg]
    unfold writersFor
    rw [List.filter_append, filter_filter_not_beq]
    rcases hshape with ⟨hnone, -⟩ | ⟨w, hsome, hwh, -⟩
    · subst hnone; simp [optToList]
    · subst hsome
      have : (w.hostId == h) = true := by simp [hwh]
      simp [optToList, List.filter, this]
  refine ⟨hA, ?_, ⟨tr2, htr⟩, ?_, ?_⟩
  · intro g hg
    rw [hreg]
    unfold writersFor at hg ⊢
    rw [List.filter_append]
    rcases hshape with ⟨hnone, -⟩ | ⟨w, hsome, hwh, -⟩
    · subst hnone
      simp only [optToList, List.filter_nil, List.append_nil]
      exact le_trans (length_filter_filter_le _ _ _) hg
    · subst hsome
      by_cases hgh : g = h
      · subst hgh
        rw [filter_filter_not_beq]
        have : (w.hostId == g) = true := by simp [hwh]
        simp [optToList, List.filter, this]
      · have hne : (w.hostId == g) = false := by
          rw [hwh]; simp [hgh]; intro hc; exact hgh hc.symm
        have : (List.filter (fun v => v.hostId == g) (optToList (some w))) = [] := by
          simp [optToList, List.filter, hne]
        rw [this, List.append_nil]
        exact le_trans (length_filter_filter_le _ _ _) hg
  · intro x
    unfold writersFor
    exact writerInsert_not_mem_removal h x _
  · intro hmem
    have hupd2 := updateBootConfiguration_res b (updateBootConfiguration b s h).1 h hv
    rcases hcore2 : updateCore b (updateBootConfiguration b s h).1.config
        ((updateBootConfiguration b s h).1.pxeConfigWriters.filter
          (fun w => !(w.hostId == h)))
        (updateBootConfiguration b s h).1.disk h with ⟨res2, w2?, tr22, d22⟩
    have hshape2 := updateCore_shape b (updateBootConfiguration b s h).1.config
      ((updateBootConfiguration b s h).1.pxeConfigWriters.filter
        (fun w => !(w.hostId == h)))
      (updateBootConfiguration b s h).1.disk h res2 w2? tr22 d22 hcore2
    have htr2 : (updateBootConfiguration b (updateBootConfiguration b s h).1 h).2.1
        = ([Action.lockAcquire, Action.removeFromRegistry h, Action.lockRelease]
            ++ ((updateBootConfiguration b s h).1.pxeConfigWriters.filter
                  (fun w => w.hostId == h)).flatMap
                 (fun w => [Action.writerStop w.hostId, Action.writerJoin w.hostId]))
          ++ tr22 := by
      rw [hupd2]; simp only [hcore2]
    have hreg2 : (updateBootConfiguration b (updateBootConfiguration b s h).1 h).1.pxeConfigWriters
        = (updateBootConfiguration b s h).1.pxeConfigWriters.filter
            (fun v => !(v.hostId == h)) ++ optToList w2? := by
      rcases w2? with _ | w2x <;> (rw [hupd2]; simp only [hcore2]) <;> rfl
    rw [htr2] at hmem
    rcases List.mem_append.mp hmem with hmem1 | hmem2
    · exact absurd hmem1 (writerInsert_not_mem_removal h h _)
    · rcases hshape2 with ⟨-, htrnil⟩ | ⟨w2, hsome2, hwh2, -⟩
      · rw [htrnil] at hmem2; cases hmem2
      · rw [hreg2]
        subst hsome2
        unfold writersFor
        rw [List.filter_append, filter_filter_not_beq]
        have : (w2.hostId == h) = true := by simp [hwh2]
        simp [optToList, List.filter, this]

/-- C1 witness — at a concrete backend and state, after `update` the
registry holds at most one writer for the host. -/
theorem update_writer_exclusivity_witness :
    (writersFor (updateBootConfiguration bC3 sC3 "pc01.lab.example").1.pxeConfigWriters
      "pc01.lab.example").length ≤ 1 :=
  (update_writer_exclusivity bC3 sC3 "pc01.lab.example" (by decide)).1
